import Mathlib

/-!
# A shallow embedding of the `goprofiler` snapshot controller

This file embeds the `profiler` package of `quipo/goprofiler` (the current
version of `profiler.go`) and proves the specified properties of its
scheduling, snapshot and lifecycle logic.

Modelling conventions:

* Side effects (runtime knobs, file creation, profile writes, log lines,
  timer arming) are recorded as an ordered `List Event` trace.
* The external world — `time.ParseDuration`, `os.Create` success, write and
  close success, and the wall clock — is an explicit `Env` record.  Each call
  of `time.Now().Unix()` consumes one tick index and reads `env.clock`.
* The `select` between the timer channel and the termination channel is
  driven by an explicit schedule `List Wake`: each iteration of the loop
  consumes one `Wake` telling which of the two events won the race.
* A Go `panic` is modelled as an aborted result (`Except.error` /
  `Outcome.panicked`); blocking forever (an exhausted wake schedule) is
  `Outcome.blocked`.
* The cleanup closures stored in `closers` all arise from
  `startProfilingCPU` and capture exactly one open file, so the list is
  embedded as the list of captured file names.
-/

namespace GoProfiler

/-- Go struct `Config`: the profiler settings (all fields of the source). -/
structure Config where
  CPU : Bool
  Memory : Bool
  Block : Bool
  Goroutine : Bool
  Mutex : Bool
  Prefix : String
  Interval : String
  MemoryProfileRate : Int
  CPUProfileRate : Int
  MutexProfileFraction : Int
deriving DecidableEq, Repr

/-- One observable side effect of the controller, in program order. -/
inductive Event where
  | logMsg (msg : String)
  | setCPUProfileRate (hz : Int)
  | startCPUProfile (ok : Bool)
  | stopCPUProfile
  | setMemProfileRate (r : Int)
  | setBlockProfileRate (r : Int)
  | setMutexProfileFraction (n : Int)
  | createFile (name : String) (ok : Bool)
  | writeHeap (name : String) (ok : Bool)
  | writeProfile (profileName : String) (name : String) (debug : Nat) (ok : Bool)
  | closeFile (name : String) (ok : Bool)
  | armTimer (d : Nat)
deriving DecidableEq, Repr

/-- A persisted artifact: a profile dump file successfully created on disk,
with the kind label and the epoch second baked into its name. -/
structure Artifact where
  kind : String
  time : Nat
  name : String
deriving DecidableEq, Repr

/-- The external world the controller interacts with:
`parseDuration` is `time.ParseDuration` (in nanoseconds), `createOk`,
`writeOk`, `closeOk` say whether the filesystem accepts the corresponding
operation on a given file name, `startCPUOk` whether
`pprof.StartCPUProfile` succeeds, and `clock k` is the value of
`time.Now().Unix()` at the k-th call. -/
structure Env where
  parseDuration : String → Option Nat
  createOk : String → Bool
  writeOk : String → Bool
  closeOk : String → Bool
  startCPUOk : Bool
  clock : Nat → Nat

/-- The controller state: Go struct `profiler`.  `closers` holds the file
names captured by the registered cleanup closures, in registration order;
`terminateClosed` is whether `close(terminateCh)` has happened. -/
structure Profiler where
  conf : Config
  closers : List String
  terminateClosed : Bool
deriving DecidableEq, Repr

/-- Go `NewProfiler`: fresh controller, open termination channel, empty
cleanup list. -/
def NewProfiler (conf : Config) : Profiler :=
  ⟨conf, [], false⟩

/-- Go `Config.isOn`: at least one profile kind is enabled. -/
def Config.isOn (c : Config) : Bool :=
  c.CPU || c.Memory || c.Goroutine || c.Block || c.Mutex

/-- Artifact name: `fmt.Sprintf("%s%s.%d.pprof", prefix, kind, unixtime)`. -/
def fileName (pre kind : String) (t : Nat) : String :=
  pre ++ kind ++ "." ++ toString t ++ ".pprof"

/-- Result of one state-changing step: new controller state, emitted events,
persisted artifacts, next clock tick index. -/
structure StepOut where
  prof : Profiler
  evs : List Event
  arts : List Artifact
  tick : Nat
deriving DecidableEq, Repr

/-- Go `startProfilingCPU`: log, create the capture file (`panic` on
failure, modelled as `Except.error` carrying the trace up to the panic),
start the CPU profile (logging on failure), and register a cleanup that
will close the file. -/
def startProfilingCPU (env : Env) (p : Profiler) (tick : Nat) :
    Except (List Event) StepOut :=
  let t := env.clock tick
  let name := fileName p.conf.Prefix "cpu" t
  let ev0 := Event.logMsg ("Starting new CPU Profiler: " ++ name)
  if env.createOk name then
    Except.ok
      ⟨{ p with closers := p.closers ++ [name] },
       [ev0, Event.createFile name true, Event.startCPUProfile env.startCPUOk] ++
         (if env.startCPUOk then [] else
           [Event.logMsg "could not start CPU profile"]),
       [⟨"cpu", t, name⟩],
       tick + 1⟩
  else
    Except.error [ev0, Event.createFile name false]

/-- Go `takeCPUSnapshot`: log and stop the CPU profile (no file operation,
no clock read). -/
def takeCPUSnapshot : List Event :=
  [Event.logMsg "Stopping CPU Profiler", Event.stopCPUProfile]

/-- Go `takeMemorySnapshot`: log, create the artifact (logging on failure
and continuing with the invalid handle, as the source does), write the heap
profile, close; write and close fail — and are logged — whenever the create
failed.  The artifact is persisted exactly when the create succeeded. -/
def takeMemorySnapshot (env : Env) (c : Config) (tick : Nat) :
    List Event × List Artifact × Nat :=
  let t := env.clock tick
  let name := fileName c.Prefix "mem" t
  let cok := env.createOk name
  let wok := cok && env.writeOk name
  let kok := cok && env.closeOk name
  ([Event.logMsg ("Taking Memory Profile Snapshot: " ++ name),
    Event.createFile name cok] ++
   (if cok then [] else [Event.logMsg ("create failed: " ++ name)]) ++
   [Event.writeHeap name wok] ++
   (if wok then [] else [Event.logMsg ("write failed: " ++ name)]) ++
   [Event.closeFile name kok] ++
   (if kok then [] else [Event.logMsg ("close failed: " ++ name)]),
   if cok then [⟨"mem", t, name⟩] else [], tick + 1)

/-- Go `takeBlockSnapshot`: log, create, write the `block` profile at debug
level 2, close, then `runtime.SetBlockProfileRate(0)`. -/
def takeBlockSnapshot (env : Env) (c : Config) (tick : Nat) :
    List Event × List Artifact × Nat :=
  let t := env.clock tick
  let name := fileName c.Prefix "block" t
  let cok := env.createOk name
  let wok := cok && env.writeOk name
  let kok := cok && env.closeOk name
  ([Event.logMsg ("Taking Block Profile Snapshot: " ++ name),
    Event.createFile name cok] ++
   (if cok then [] else [Event.logMsg ("create failed: " ++ name)]) ++
   [Event.writeProfile "block" name 2 wok] ++
   (if wok then [] else [Event.logMsg ("write failed: " ++ name)]) ++
   [Event.closeFile name kok] ++
   (if kok then [] else [Event.logMsg ("close failed: " ++ name)]) ++
   [Event.setBlockProfileRate 0],
   if cok then [⟨"block", t, name⟩] else [], tick + 1)

/-- Go `takeGoroutineSnapshot`: log, create, write the `goroutine` profile
at debug level 2, close. -/
def takeGoroutineSnapshot (env : Env) (c : Config) (tick : Nat) :
    List Event × List Artifact × Nat :=
  let t := env.clock tick
  let name := fileName c.Prefix "goroutine" t
  let cok := env.createOk name
  let wok := cok && env.writeOk name
  let kok := cok && env.closeOk name
  ([Event.logMsg ("Taking Goroutine Profile Snapshot: " ++ name),
    Event.createFile name cok] ++
   (if cok then [] else [Event.logMsg ("create failed: " ++ name)]) ++
   [Event.writeProfile "goroutine" name 2 wok] ++
   (if wok then [] else [Event.logMsg ("write failed: " ++ name)]) ++
   [Event.closeFile name kok] ++
   (if kok then [] else [Event.logMsg ("close failed: " ++ name)]),
   if cok then [⟨"goroutine", t, name⟩] else [], tick + 1)

/-- Go `takeMutexSnapshot`: log, create, write the `mutex` profile at debug
level 2, close. -/
def takeMutexSnapshot (env : Env) (c : Config) (tick : Nat) :
    List Event × List Artifact × Nat :=
  let t := env.clock tick
  let name := fileName c.Prefix "mutex" t
  let cok := env.createOk name
  let wok := cok && env.writeOk name
  let kok := cok && env.closeOk name
  ([Event.logMsg ("Taking Mutex Profile Snapshot: " ++ name),
    Event.createFile name cok] ++
   (if cok then [] else [Event.logMsg ("create failed: " ++ name)]) ++
   [Event.writeProfile "mutex" name 2 wok] ++
   (if wok then [] else [Event.logMsg ("write failed: " ++ name)]) ++
   [Event.closeFile name kok] ++
   (if kok then [] else [Event.logMsg ("close failed: " ++ name)]),
   if cok then [⟨"mutex", t, name⟩] else [], tick + 1)

/-- The `if p.conf.Memory` block of `TakeSnapshot`. -/
def memStep (env : Env) (c : Config) (tick : Nat) :
    List Event × List Artifact × Nat :=
  if c.Memory then takeMemorySnapshot env c tick else ([], [], tick)

/-- The `if p.conf.Block` block of `TakeSnapshot`. -/
def blockStep (env : Env) (c : Config) (tick : Nat) :
    List Event × List Artifact × Nat :=
  if c.Block then takeBlockSnapshot env c tick else ([], [], tick)

/-- The `if p.conf.Goroutine` block of `TakeSnapshot`. -/
def goroStep (env : Env) (c : Config) (tick : Nat) :
    List Event × List Artifact × Nat :=
  if c.Goroutine then takeGoroutineSnapshot env c tick else ([], [], tick)

/-- The `if p.conf.Mutex` block of `TakeSnapshot`. -/
def mutexStep (env : Env) (c : Config) (tick : Nat) :
    List Event × List Artifact × Nat :=
  if c.Mutex then takeMutexSnapshot env c tick else ([], [], tick)

/-- The per-kind part of `TakeSnapshot`: the five `if p.conf.X` blocks of
the source, in source order (CPU, Memory, Block, Goroutine, Mutex). -/
def snapshotKinds (env : Env) (c : Config) (tick : Nat) :
    List Event × List Artifact × Nat :=
  let e1 := if c.CPU then takeCPUSnapshot else []
  let m := memStep env c tick
  let b := blockStep env c m.2.2
  let g := goroStep env c b.2.2
  let x := mutexStep env c g.2.2
  (e1 ++ m.1 ++ b.1 ++ g.1 ++ x.1,
   m.2.1 ++ b.2.1 ++ g.2.1 ++ x.2.1, x.2.2)

/-- The trace of one registered cleanup closure firing: close the captured
file (it was created successfully, or `startProfilingCPU` would have
panicked) and log a failed close. -/
def closerTrace (env : Env) (name : String) : List Event :=
  [Event.closeFile name (env.closeOk name)] ++
    (if env.closeOk name then [] else
      [Event.logMsg ("close failed: " ++ name)])

/-- Go `TakeSnapshot`: per-kind writes in source order, then run every
pending cleanup in registration order, then truncate the cleanup list
(`p.closers = p.closers[:0]`). -/
def TakeSnapshot (env : Env) (p : Profiler) (tick : Nat) : StepOut :=
  let k := snapshotKinds env p.conf tick
  ⟨{ p with closers := [] },
   k.1 ++ p.closers.flatMap (closerTrace env),
   k.2.1, k.2.2⟩

/-- The activation phase of Go `Run` (everything before the interval
check): CPU sample rate + `startProfilingCPU` when CPU is enabled,
`runtime.MemProfileRate` assignment when Memory is enabled,
`SetBlockProfileRate(1)` when Block is enabled,
`SetMutexProfileFraction` when Mutex is enabled. -/
def activate (env : Env) (p : Profiler) (tick : Nat) :
    Except (List Event) StepOut :=
  let afterCPU : Except (List Event) StepOut :=
    if p.conf.CPU then
      let rateEvs := if 0 < p.conf.CPUProfileRate then
          [Event.setCPUProfileRate p.conf.CPUProfileRate] else []
      match startProfilingCPU env p tick with
      | Except.error evs => Except.error (rateEvs ++ evs)
      | Except.ok s => Except.ok ⟨s.prof, rateEvs ++ s.evs, s.arts, s.tick⟩
    else Except.ok ⟨p, [], [], tick⟩
  match afterCPU with
  | Except.error evs => Except.error evs
  | Except.ok s =>
      Except.ok
        ⟨s.prof,
         s.evs ++
           (if p.conf.Memory then
             [Event.setMemProfileRate p.conf.MemoryProfileRate] else []) ++
           (if p.conf.Block then [Event.setBlockProfileRate 1] else []) ++
           (if p.conf.Mutex then
             [Event.setMutexProfileFraction p.conf.MutexProfileFraction]
            else []),
         s.arts, s.tick⟩

/-- Which of the two `select` cases wins one iteration of the wait. -/
inductive Wake where
  | timer
  | terminate
deriving DecidableEq, Repr

/-- The overall result of `Run`: a normal return, a panic (failed CPU
capture file creation), or blocking forever at the `select` (the wake
schedule ran out). -/
inductive Outcome where
  | ret (s : StepOut)
  | panicked (evs : List Event) (arts : List Artifact)
  | blocked (evs : List Event) (arts : List Artifact)
deriving DecidableEq, Repr

/-- The event trace of an outcome. -/
def Outcome.events : Outcome → List Event
  | .ret s => s.evs
  | .panicked e _ => e
  | .blocked e _ => e

/-- The persisted artifacts of an outcome. -/
def Outcome.artifacts : Outcome → List Artifact
  | .ret s => s.arts
  | .panicked _ a => a
  | .blocked _ a => a

/-- Prefix an outcome's trace and artifacts with those of earlier steps. -/
def prependOut (evs : List Event) (arts : List Artifact) : Outcome → Outcome
  | .ret s => .ret ⟨s.prof, evs ++ s.evs, arts ++ s.arts, s.tick⟩
  | .panicked e a => .panicked (evs ++ e) (arts ++ a)
  | .blocked e a => .blocked (evs ++ e) (arts ++ a)

/-- The part of one `Run` invocation before the `select`: either `Run`
finishes without waiting (`done`) — panic, parse error, or the degenerate
single-shot mode — or it has armed the timer and is now waiting (`wait`,
carrying the activation output and the parsed duration). -/
inductive Phase where
  | done (o : Outcome)
  | wait (s : StepOut) (d : Nat)
deriving DecidableEq, Repr

/-- Go `Run` up to the `select`: activation, then — when some kind is
enabled and the interval string is non-empty — parse the interval, logging
the error and returning on a parse failure, else arm the one-shot timer
and wait. -/
def runHead (env : Env) (p : Profiler) (tick : Nat) : Phase :=
  match activate env p tick with
  | Except.error evs => Phase.done (Outcome.panicked evs [])
  | Except.ok s =>
    if p.conf.isOn && (p.conf.Interval != "") then
      match env.parseDuration p.conf.Interval with
      | none =>
          Phase.done (Outcome.ret
            ⟨s.prof,
             s.evs ++ [Event.logMsg "Error parsing interval parameter"],
             s.arts, s.tick⟩)
      | some d => Phase.wait s d
    else Phase.done (Outcome.ret s)

/-- Go `Run`: `runHead`, then the `select` driven by the wake schedule.
Timer expiry takes a snapshot and re-invokes `Run` on the rest of the
schedule; the termination signal takes one final snapshot and returns. -/
def run (env : Env) : List Wake → Profiler → Nat → Outcome
  | [], p, tick =>
    match runHead env p tick with
    | Phase.done o => o
    | Phase.wait s d => Outcome.blocked (s.evs ++ [Event.armTimer d]) s.arts
  | w :: ws, p, tick =>
    match runHead env p tick with
    | Phase.done o => o
    | Phase.wait s d =>
      let snap := TakeSnapshot env s.prof s.tick
      match w with
      | Wake.timer =>
          prependOut (s.evs ++ [Event.armTimer d] ++ snap.evs)
            (s.arts ++ snap.arts)
            (run env ws snap.prof snap.tick)
      | Wake.terminate =>
          Outcome.ret
            ⟨snap.prof,
             s.evs ++ [Event.armTimer d] ++ snap.evs,
             s.arts ++ snap.arts, snap.tick⟩

/-- Go `Stop`: `close(p.terminateCh)`.  Closing an already-closed channel
panics in Go, modelled as `none`; otherwise the channel becomes closed. -/
def Stop (p : Profiler) : Option Profiler :=
  if p.terminateClosed then none
  else some { p with terminateClosed := true }

/-! ## Basic facts about the snapshot helpers -/

theorem TakeSnapshot_prof (env : Env) (p : Profiler) (tick : Nat) :
    (TakeSnapshot env p tick).prof = { p with closers := [] } := rfl

theorem TakeSnapshot_evs (env : Env) (p : Profiler) (tick : Nat) :
    (TakeSnapshot env p tick).evs
      = (snapshotKinds env p.conf tick).1 ++ p.closers.flatMap (closerTrace env) := rfl

/-- C1: every `TakeSnapshot` call runs the pending cleanup actions in
registration order (the trace ends with the closer traces of `p.closers`,
in list order), leaves the cleanup list empty, and a later `TakeSnapshot`
on the resulting state emits only the per-kind events — no cleanup
registered before the first snapshot is ever re-invoked. -/
theorem claim_C1 (env : Env) (p : Profiler) (tick : Nat) :
    (TakeSnapshot env p tick).evs
      = (snapshotKinds env p.conf tick).1 ++ p.closers.flatMap (closerTrace env)
    ∧ (TakeSnapshot env p tick).prof.closers = []
    ∧ ∀ tick2 : Nat,
        (TakeSnapshot env (TakeSnapshot env p tick).prof tick2).evs
          = (snapshotKinds env p.conf tick2).1 := by
  refine ⟨rfl, rfl, fun tick2 => ?_⟩
  simp [TakeSnapshot]

/-- C5: with no profiling kind enabled, `Run` emits no event at all (no
activation, no timer arming), persists no artifact, and returns at once
with the controller untouched, whatever the interval string and the wake
schedule. -/
theorem claim_C5 (env : Env) (ws : List Wake) (p : Profiler) (tick : Nat)
    (h1 : p.conf.CPU = false) (h2 : p.conf.Memory = false)
    (h3 : p.conf.Block = false) (h4 : p.conf.Goroutine = false)
    (h5 : p.conf.Mutex = false) :
    run env ws p tick = Outcome.ret ⟨p, [], [], tick⟩ := by
  have hact : activate env p tick = Except.ok ⟨p, [], [], tick⟩ := by
    simp [activate, h1, h2, h3, h5]
  have hon : p.conf.isOn = false := by
    simp [Config.isOn, h1, h2, h3, h4, h5]
  have hh : runHead env p tick = Phase.done (Outcome.ret ⟨p, [], [], tick⟩) := by
    simp [runHead, hact, hon]
  cases ws with
  | nil => simp [run, hh]
  | cons w ws => simp [run, hh]

/-- Closed instance for C5: the all-disabled configuration. -/
def confOff : Config := ⟨false, false, false, false, false, "p.", "1s", 0, 0, 0⟩

/-- An everything-succeeds environment used by concrete witnesses. -/
def envW : Env :=
  ⟨fun s => if s == "1s" then some 1000000000 else none,
   fun _ => true, fun _ => true, fun _ => true, true, fun _ => 7⟩

theorem claim_C5_witness :
    run envW [Wake.timer, Wake.terminate] (NewProfiler confOff) 0
      = Outcome.ret ⟨NewProfiler confOff, [], [], 0⟩ :=
  claim_C5 envW [Wake.timer, Wake.terminate] (NewProfiler confOff) 0
    rfl rfl rfl rfl rfl

/-- C7: a block-kind snapshot, on the success path, performs exactly, in
order: open a fresh artifact, write the accumulated `block` profile at
debug (verbose) level 2, close the artifact, and finally set the block
profile rate to 0. -/
theorem claim_C7 (env : Env) (c : Config) (tick : Nat)
    (hc : env.createOk (fileName c.Prefix "block" (env.clock tick)) = true)
    (hw : env.writeOk (fileName c.Prefix "block" (env.clock tick)) = true)
    (hk : env.closeOk (fileName c.Prefix "block" (env.clock tick)) = true) :
    (takeBlockSnapshot env c tick).1
      = [Event.logMsg
           ("Taking Block Profile Snapshot: "
             ++ fileName c.Prefix "block" (env.clock tick)),
         Event.createFile (fileName c.Prefix "block" (env.clock tick)) true,
         Event.writeProfile "block"
           (fileName c.Prefix "block" (env.clock tick)) 2 true,
         Event.closeFile (fileName c.Prefix "block" (env.clock tick)) true,
         Event.setBlockProfileRate 0] := by
  simp [takeBlockSnapshot, hc, hw, hk]

theorem claim_C7_witness :
    (takeBlockSnapshot envW confOff 0).1
      = [Event.logMsg ("Taking Block Profile Snapshot: "
           ++ fileName "p." "block" 7),
         Event.createFile (fileName "p." "block" 7) true,
         Event.writeProfile "block" (fileName "p." "block" 7) 2 true,
         Event.closeFile (fileName "p." "block" 7) true,
         Event.setBlockProfileRate 0] :=
  claim_C7 envW confOff 0 rfl rfl rfl

/-- C10: the first `Stop` closes the termination channel and returns; a
second `Stop` is a close of an already-closed channel, i.e. a panic. -/
theorem claim_C10 (p : Profiler) (h : p.terminateClosed = false) :
    Stop p = some { p with terminateClosed := true }
    ∧ Stop { p with terminateClosed := true } = none := by
  simp [Stop, h]

theorem claim_C10_witness :
    Stop (NewProfiler confOff)
        = some { NewProfiler confOff with terminateClosed := true }
    ∧ Stop { NewProfiler confOff with terminateClosed := true } = none :=
  claim_C10 (NewProfiler confOff) rfl

/-! ## Trace cleanliness lemmas: which events a snapshot can emit -/

theorem arm_not_mem_memSnap (env : Env) (c : Config) (tick d : Nat) :
    Event.armTimer d ∉ (takeMemorySnapshot env c tick).1 := by
  intro h
  simp only [takeMemorySnapshot, List.append_assoc, List.mem_append,
    List.mem_cons, List.mem_singleton] at h
  split_ifs at h <;> simp_all

theorem arm_not_mem_blockSnap (env : Env) (c : Config) (tick d : Nat) :
    Event.armTimer d ∉ (takeBlockSnapshot env c tick).1 := by
  intro h
  simp only [takeBlockSnapshot, List.append_assoc, List.mem_append,
    List.mem_cons, List.mem_singleton] at h
  split_ifs at h <;> simp_all

theorem arm_not_mem_goroSnap (env : Env) (c : Config) (tick d : Nat) :
    Event.armTimer d ∉ (takeGoroutineSnapshot env c tick).1 := by
  intro h
  simp only [takeGoroutineSnapshot, List.append_assoc, List.mem_append,
    List.mem_cons, List.mem_singleton] at h
  split_ifs at h <;> simp_all

theorem arm_not_mem_mutexSnap (env : Env) (c : Config) (tick d : Nat) :
    Event.armTimer d ∉ (takeMutexSnapshot env c tick).1 := by
  intro h
  simp only [takeMutexSnapshot, List.append_assoc, List.mem_append,
    List.mem_cons, List.mem_singleton] at h
  split_ifs at h <;> simp_all

theorem arm_not_mem_kinds (env : Env) (c : Config) (tick d : Nat) :
    Event.armTimer d ∉ (snapshotKinds env c tick).1 := by
  cases hC : c.CPU <;> cases hM : c.Memory <;> cases hB : c.Block <;>
    cases hG : c.Goroutine <;> cases hX : c.Mutex <;>
      simp [snapshotKinds, memStep, blockStep, goroStep, mutexStep,
        hC, hM, hB, hG, hX, takeCPUSnapshot,
        arm_not_mem_memSnap, arm_not_mem_blockSnap, arm_not_mem_goroSnap,
        arm_not_mem_mutexSnap]

theorem arm_not_mem_closer (env : Env) (n : String) (d : Nat) :
    Event.armTimer d ∉ closerTrace env n := by
  intro h
  simp only [closerTrace, List.mem_append, List.mem_singleton] at h
  split_ifs at h <;> simp_all

theorem arm_not_mem_snapshot (env : Env) (p : Profiler) (tick d : Nat) :
    Event.armTimer d ∉ (TakeSnapshot env p tick).evs := by
  intro h
  rw [TakeSnapshot_evs] at h
  rcases List.mem_append.1 h with h | h
  · exact arm_not_mem_kinds env p.conf tick d h
  · rcases List.mem_flatMap.1 h with ⟨n, _, hn⟩
    exact arm_not_mem_closer env n d hn

/-! ## Characterisation of the activation phase -/

theorem activate_ok_prof (env : Env) (p : Profiler) (tick : Nat) (s : StepOut)
    (h : activate env p tick = Except.ok s) :
    s.prof.conf = p.conf ∧ s.prof.terminateClosed = p.terminateClosed ∧
    s.prof.closers
      = p.closers ++
        (if p.conf.CPU then [fileName p.conf.Prefix "cpu" (env.clock tick)]
         else []) ∧
    s.tick = tick + (if p.conf.CPU then 1 else 0) := by
  cases hC : p.conf.CPU with
  | false =>
      simp only [activate, startProfilingCPU, hC, Bool.false_eq_true,
        if_false, reduceIte] at h
      cases h
      simp
  | true =>
      by_cases hcr : env.createOk (fileName p.conf.Prefix "cpu" (env.clock tick))
      · simp only [activate, startProfilingCPU, hC, hcr, if_true, reduceIte] at h
        cases h
        simp [hC]
      · simp only [activate, startProfilingCPU, hC, hcr, if_true, reduceIte,
          Bool.false_eq_true, if_false] at h
        cases h

theorem activate_ok_evs_clean (env : Env) (p : Profiler) (tick : Nat)
    (s : StepOut) (h : activate env p tick = Except.ok s) :
    (∀ d, Event.armTimer d ∉ s.evs) ∧ Event.stopCPUProfile ∉ s.evs ∧
    Event.setBlockProfileRate 0 ∉ s.evs := by
  cases hC : p.conf.CPU with
  | false =>
      simp only [activate, startProfilingCPU, hC, Bool.false_eq_true,
        if_false, reduceIte] at h
      cases h
      refine ⟨fun d => ?_, ?_, ?_⟩ <;>
        · intro hm
          simp only [List.mem_append, List.mem_singleton, List.nil_append] at hm
          split_ifs at hm <;> simp_all
  | true =>
      by_cases hcr : env.createOk (fileName p.conf.Prefix "cpu" (env.clock tick))
      · simp only [activate, startProfilingCPU, hC, hcr, if_true, reduceIte] at h
        cases h
        refine ⟨fun d => ?_, ?_, ?_⟩ <;>
          · intro hm
            simp only [List.mem_append, List.mem_singleton, List.mem_cons,
              List.append_assoc] at hm
            split_ifs at hm <;> simp_all
      · simp only [activate, startProfilingCPU, hC, hcr, if_true, reduceIte,
          Bool.false_eq_true, if_false] at h
        cases h

/-! ## The two exits of one waiting cycle -/

/-- C2: when the loop is parked at the timer/termination wait (some kind
enabled, non-empty parseable interval, activation succeeded), a
termination signal makes it take exactly one final snapshot and return:
the result is fixed whatever further wakes would follow (the loop never
looks at them), and no timer-arming event occurs after the one armed
before the wait. -/
theorem claim_C2 (env : Env) (p : Profiler) (tick d : Nat) (ws : List Wake)
    (s : StepOut)
    (hact : activate env p tick = Except.ok s)
    (hon : p.conf.isOn = true)
    (hi : p.conf.Interval ≠ "")
    (hd : env.parseDuration p.conf.Interval = some d) :
    run env (Wake.terminate :: ws) p tick
      = Outcome.ret
          ⟨(TakeSnapshot env s.prof s.tick).prof,
           s.evs ++ [Event.armTimer d] ++ (TakeSnapshot env s.prof s.tick).evs,
           s.arts ++ (TakeSnapshot env s.prof s.tick).arts,
           (TakeSnapshot env s.prof s.tick).tick⟩
    ∧ ∀ d2 : Nat, Event.armTimer d2 ∉ (TakeSnapshot env s.prof s.tick).evs := by
  have hh : runHead env p tick = Phase.wait s d := by
    simp [runHead, hact, hon, hi, hd]
  refine ⟨?_, fun d2 => arm_not_mem_snapshot env s.prof s.tick d2⟩
  simp [run, hh]

/-- C3: with some kind enabled and a non-empty interval string that does
not parse, `Run` returns right after activation with only the parse-error
log appended: no timer is armed, no snapshot event occurs, and nothing
deactivates the already-activated instrumentation (no CPU-profile stop, no
block-rate reset to 0) — whatever the wake schedule. -/
theorem claim_C3 (env : Env) (ws : List Wake) (p : Profiler) (tick : Nat)
    (s : StepOut)
    (hact : activate env p tick = Except.ok s)
    (hon : p.conf.isOn = true)
    (hi : p.conf.Interval ≠ "")
    (hd : env.parseDuration p.conf.Interval = none) :
    run env ws p tick
      = Outcome.ret
          ⟨s.prof, s.evs ++ [Event.logMsg "Error parsing interval parameter"],
           s.arts, s.tick⟩
    ∧ (∀ d, Event.armTimer d ∉ (run env ws p tick).events)
    ∧ Event.stopCPUProfile ∉ (run env ws p tick).events
    ∧ Event.setBlockProfileRate 0 ∉ (run env ws p tick).events := by
  have hh : runHead env p tick
      = Phase.done (Outcome.ret
          ⟨s.prof, s.evs ++ [Event.logMsg "Error parsing interval parameter"],
           s.arts, s.tick⟩) := by
    simp [runHead, hact, hon, hi, hd]
  have he : run env ws p tick
      = Outcome.ret
          ⟨s.prof, s.evs ++ [Event.logMsg "Error parsing interval parameter"],
           s.arts, s.tick⟩ := by
    cases ws with
    | nil => simp [run, hh]
    | cons w ws => simp [run, hh]
  obtain ⟨hc1, hc2, hc3⟩ := activate_ok_evs_clean env p tick s hact
  refine ⟨he, fun d => ?_, ?_, ?_⟩ <;>
    · rw [he]
      intro hm
      simp only [Outcome.events, List.mem_append, List.mem_singleton] at hm
      rcases hm with hm | hm
      · first
          | exact hc1 _ hm
          | exact hc2 hm
          | exact hc3 hm
      · simp_all

/-- Memory-only configuration with a parseable one-second interval. -/
def confMem : Config := ⟨false, true, false, false, false, "w.", "1s", 1, 0, 0⟩

/-- Activation output of `confMem` under `envW` at tick 0. -/
def sMem : StepOut :=
  ⟨NewProfiler confMem, [Event.setMemProfileRate 1], [], 0⟩

theorem claim_C2_witness :
    run envW [Wake.terminate] (NewProfiler confMem) 0
      = Outcome.ret
          ⟨(TakeSnapshot envW sMem.prof sMem.tick).prof,
           sMem.evs ++ [Event.armTimer 1000000000]
             ++ (TakeSnapshot envW sMem.prof sMem.tick).evs,
           sMem.arts ++ (TakeSnapshot envW sMem.prof sMem.tick).arts,
           (TakeSnapshot envW sMem.prof sMem.tick).tick⟩
    ∧ ∀ d2 : Nat,
        Event.armTimer d2 ∉ (TakeSnapshot envW sMem.prof sMem.tick).evs :=
  claim_C2 envW (NewProfiler confMem) 0 1000000000 [] sMem rfl rfl
    (by decide) rfl

/-- Memory-only configuration with a malformed interval string. -/
def confBad : Config := ⟨false, true, false, false, false, "w.", "zzz", 1, 0, 0⟩

/-- Activation output of `confBad` under `envW` at tick 0. -/
def sBad : StepOut :=
  ⟨NewProfiler confBad, [Event.setMemProfileRate 1], [], 0⟩

theorem claim_C3_witness :
    run envW [] (NewProfiler confBad) 0
      = Outcome.ret
          ⟨sBad.prof,
           sBad.evs ++ [Event.logMsg "Error parsing interval parameter"],
           sBad.arts, sBad.tick⟩
    ∧ (∀ d, Event.armTimer d ∉ (run envW [] (NewProfiler confBad) 0).events)
    ∧ Event.stopCPUProfile ∉ (run envW [] (NewProfiler confBad) 0).events
    ∧ Event.setBlockProfileRate 0
        ∉ (run envW [] (NewProfiler confBad) 0).events :=
  claim_C3 envW [] (NewProfiler confBad) 0 sBad rfl rfl (by decide) rfl

/-! ## What `runHead` tells about the state it hands over -/

theorem runHead_wait (env : Env) (p : Profiler) (tick : Nat) (s : StepOut)
    (d : Nat) (h : runHead env p tick = Phase.wait s d) :
    activate env p tick = Except.ok s
    ∧ env.parseDuration p.conf.Interval = some d := by
  unfold runHead at h
  rcases ha : activate env p tick with evs | s1 <;> rw [ha] at h <;>
    dsimp only at h
  · simp at h
  · by_cases hb : (p.conf.isOn && (p.conf.Interval != "")) = true
    · rw [if_pos hb] at h
      rcases hp : env.parseDuration p.conf.Interval with _ | d1 <;>
        rw [hp] at h
      · simp at h
      · simp only [Phase.wait.injEq] at h
        rw [h.1, h.2]
        exact ⟨rfl, rfl⟩
    · rw [if_neg hb] at h
      simp at h

theorem runHead_done_ret (env : Env) (p : Profiler) (tick : Nat) (s : StepOut)
    (h : runHead env p tick = Phase.done (Outcome.ret s)) :
    s.prof.conf = p.conf := by
  unfold runHead at h
  rcases ha : activate env p tick with evs | s1 <;> rw [ha] at h <;>
    dsimp only at h
  · simp at h
  · have hc := (activate_ok_prof env p tick s1 ha).1
    by_cases hb : (p.conf.isOn && (p.conf.Interval != "")) = true
    · rw [if_pos hb] at h
      rcases hp : env.parseDuration p.conf.Interval with _ | d1 <;>
        rw [hp] at h
      · simp only [Phase.done.injEq, Outcome.ret.injEq] at h
        rw [← h]
        exact hc
      · simp at h
    · rw [if_neg hb] at h
      simp only [Phase.done.injEq, Outcome.ret.injEq] at h
      rw [← h]
      exact hc

/-- Any normal return of `run` carries the configuration it started with. -/
theorem run_ret_conf (env : Env) (ws : List Wake) (p : Profiler) (tick : Nat)
    (s : StepOut) (h : run env ws p tick = Outcome.ret s) :
    s.prof.conf = p.conf := by
  revert h
  induction ws generalizing p tick s with
  | nil =>
      intro h
      simp only [run] at h
      rcases hh : runHead env p tick with o | ⟨s1, d⟩ <;> rw [hh] at h <;>
        dsimp only at h
      · rw [h] at hh
        exact runHead_done_ret env p tick s hh
      · simp at h
  | cons w ws ih =>
      intro h
      simp only [run] at h
      rcases hh : runHead env p tick with o | ⟨s1, d⟩ <;> rw [hh] at h <;>
        dsimp only at h
      · rw [h] at hh
        exact runHead_done_ret env p tick s hh
      · have hs1 : s1.prof.conf = p.conf :=
          (activate_ok_prof env p tick s1
            (runHead_wait env p tick s1 d hh).1).1
        cases w with
        | terminate =>
            simp only [Outcome.ret.injEq] at h
            rw [← h, TakeSnapshot_prof]
            exact hs1
        | timer =>
            dsimp only at h
            rcases hr : run env ws (TakeSnapshot env s1.prof s1.tick).prof
                (TakeSnapshot env s1.prof s1.tick).tick with s2 | ⟨e, a⟩ |
                ⟨e, a⟩ <;> rw [hr] at h <;>
              simp only [prependOut] at h
            · simp only [Outcome.ret.injEq] at h
              have h2 := ih (TakeSnapshot env s1.prof s1.tick).prof
                (TakeSnapshot env s1.prof s1.tick).tick s2 hr
              rw [TakeSnapshot_prof] at h2
              rw [← h]
              exact h2.trans hs1
            · exact absurd h (by simp)
            · exact absurd h (by simp)

/-- C8: no operation of the controller mutates its configuration: a normal
return of `Run` carries the starting configuration, and `TakeSnapshot`,
activation, `startProfilingCPU` and `Stop` all preserve it. -/
theorem claim_C8 (env : Env) (ws : List Wake) (p : Profiler) (tick : Nat)
    (s : StepOut) (hr : run env ws p tick = Outcome.ret s) :
    s.prof.conf = p.conf
    ∧ (TakeSnapshot env p tick).prof.conf = p.conf
    ∧ (activate env p tick).map (fun s2 => s2.prof.conf)
        = (activate env p tick).map (fun _ => p.conf)
    ∧ (startProfilingCPU env p tick).map (fun s2 => s2.prof.conf)
        = (startProfilingCPU env p tick).map (fun _ => p.conf)
    ∧ (Stop p).map Profiler.conf = (Stop p).map (fun _ => p.conf) := by
  refine ⟨run_ret_conf env ws p tick s hr, rfl, ?_, ?_, ?_⟩
  · rcases ha : activate env p tick with evs | s1
    · rfl
    · simp [Except.map, (activate_ok_prof env p tick s1 ha).1]
  · by_cases hcr : env.createOk (fileName p.conf.Prefix "cpu" (env.clock tick))
    · simp [startProfilingCPU, hcr, Except.map]
    · simp [startProfilingCPU, hcr, Except.map]
  · cases ht : p.terminateClosed <;> simp [Stop, ht]

/-- The immediate-return output of the all-disabled configuration. -/
def sOff : StepOut := ⟨NewProfiler confOff, [], [], 0⟩

theorem claim_C8_witness :
    sOff.prof.conf = (NewProfiler confOff).conf
    ∧ (TakeSnapshot envW (NewProfiler confOff) 0).prof.conf
        = (NewProfiler confOff).conf
    ∧ (activate envW (NewProfiler confOff) 0).map (fun s2 => s2.prof.conf)
        = (activate envW (NewProfiler confOff) 0).map
            (fun _ => (NewProfiler confOff).conf)
    ∧ (startProfilingCPU envW (NewProfiler confOff) 0).map
          (fun s2 => s2.prof.conf)
        = (startProfilingCPU envW (NewProfiler confOff) 0).map
            (fun _ => (NewProfiler confOff).conf)
    ∧ (Stop (NewProfiler confOff)).map Profiler.conf
        = (Stop (NewProfiler confOff)).map
            (fun _ => (NewProfiler confOff).conf) :=
  claim_C8 envW [] (NewProfiler confOff) 0 sOff rfl

/-! ## Decomposing a snapshot trace into its per-kind segments -/

theorem mem_ite_elim {α : Type} {x : α} {c : Prop} [Decidable c]
    {l1 l2 : List α} (h : x ∈ (if c then l1 else l2)) : x ∈ l1 ∨ x ∈ l2 := by
  split at h
  · exact Or.inl h
  · exact Or.inr h

theorem memStep_evs_cases (env : Env) (c : Config) (t : Nat) {x : Event}
    (h : x ∈ (memStep env c t).1) : x ∈ (takeMemorySnapshot env c t).1 := by
  unfold memStep at h
  split at h
  · exact h
  · exact absurd h (List.not_mem_nil x)

theorem blockStep_evs_cases (env : Env) (c : Config) (t : Nat) {x : Event}
    (h : x ∈ (blockStep env c t).1) : x ∈ (takeBlockSnapshot env c t).1 := by
  unfold blockStep at h
  split at h
  · exact h
  · exact absurd h (List.not_mem_nil x)

theorem goroStep_evs_cases (env : Env) (c : Config) (t : Nat) {x : Event}
    (h : x ∈ (goroStep env c t).1) : x ∈ (takeGoroutineSnapshot env c t).1 := by
  unfold goroStep at h
  split at h
  · exact h
  · exact absurd h (List.not_mem_nil x)

theorem mutexStep_evs_cases (env : Env) (c : Config) (t : Nat) {x : Event}
    (h : x ∈ (mutexStep env c t).1) : x ∈ (takeMutexSnapshot env c t).1 := by
  unfold mutexStep at h
  split at h
  · exact h
  · exact absurd h (List.not_mem_nil x)

theorem memStep_arts_cases (env : Env) (c : Config) (t : Nat) {a : Artifact}
    (h : a ∈ (memStep env c t).2.1) : a ∈ (takeMemorySnapshot env c t).2.1 := by
  unfold memStep at h
  split at h
  · exact h
  · exact absurd h (List.not_mem_nil a)

theorem blockStep_arts_cases (env : Env) (c : Config) (t : Nat) {a : Artifact}
    (h : a ∈ (blockStep env c t).2.1) : a ∈ (takeBlockSnapshot env c t).2.1 := by
  unfold blockStep at h
  split at h
  · exact h
  · exact absurd h (List.not_mem_nil a)

theorem goroStep_arts_cases (env : Env) (c : Config) (t : Nat) {a : Artifact}
    (h : a ∈ (goroStep env c t).2.1) :
    a ∈ (takeGoroutineSnapshot env c t).2.1 := by
  unfold goroStep at h
  split at h
  · exact h
  · exact absurd h (List.not_mem_nil a)

theorem mutexStep_arts_cases (env : Env) (c : Config) (t : Nat) {a : Artifact}
    (h : a ∈ (mutexStep env c t).2.1) : a ∈ (takeMutexSnapshot env c t).2.1 := by
  unfold mutexStep at h
  split at h
  · exact h
  · exact absurd h (List.not_mem_nil a)

theorem mem_TakeSnapshot_cases (env : Env) (p : Profiler) (tick : Nat)
    {x : Event} (h : x ∈ (TakeSnapshot env p tick).evs) :
    x ∈ takeCPUSnapshot
    ∨ x ∈ (takeMemorySnapshot env p.conf tick).1
    ∨ (∃ t, x ∈ (takeBlockSnapshot env p.conf t).1)
    ∨ (∃ t, x ∈ (takeGoroutineSnapshot env p.conf t).1)
    ∨ (∃ t, x ∈ (takeMutexSnapshot env p.conf t).1)
    ∨ (∃ n, n ∈ p.closers ∧ x ∈ closerTrace env n) := by
  rw [TakeSnapshot_evs] at h
  rcases List.mem_append.1 h with h | h
  · simp only [snapshotKinds, List.append_assoc, List.mem_append] at h
    rcases h with h | h | h | h | h
    · rcases mem_ite_elim h with h | h
      · exact Or.inl h
      · exact absurd h (List.not_mem_nil x)
    · exact Or.inr (Or.inl (memStep_evs_cases env p.conf tick h))
    · exact Or.inr (Or.inr (Or.inl ⟨_, blockStep_evs_cases env p.conf _ h⟩))
    · exact Or.inr (Or.inr (Or.inr (Or.inl
        ⟨_, goroStep_evs_cases env p.conf _ h⟩)))
    · exact Or.inr (Or.inr (Or.inr (Or.inr (Or.inl
        ⟨_, mutexStep_evs_cases env p.conf _ h⟩))))
  · rcases List.mem_flatMap.1 h with ⟨n, hn, hx⟩
    exact Or.inr (Or.inr (Or.inr (Or.inr (Or.inr ⟨n, hn, hx⟩))))

/-- Same decomposition for the artifacts of one snapshot. -/
theorem mem_TakeSnapshot_arts_cases (env : Env) (p : Profiler) (tick : Nat)
    {a : Artifact} (h : a ∈ (TakeSnapshot env p tick).arts) :
    a ∈ (takeMemorySnapshot env p.conf tick).2.1
    ∨ (∃ t, a ∈ (takeBlockSnapshot env p.conf t).2.1)
    ∨ (∃ t, a ∈ (takeGoroutineSnapshot env p.conf t).2.1)
    ∨ (∃ t, a ∈ (takeMutexSnapshot env p.conf t).2.1) := by
  have h2 : a ∈ (snapshotKinds env p.conf tick).2.1 := h
  simp only [snapshotKinds, List.append_assoc, List.mem_append] at h2
  rcases h2 with h2 | h2 | h2 | h2
  · exact Or.inl (memStep_arts_cases env p.conf tick h2)
  · exact Or.inr (Or.inl ⟨_, blockStep_arts_cases env p.conf _ h2⟩)
  · exact Or.inr (Or.inr (Or.inl ⟨_, goroStep_arts_cases env p.conf _ h2⟩))
  · exact Or.inr (Or.inr (Or.inr ⟨_, mutexStep_arts_cases env p.conf _ h2⟩))

/-! ## Per-segment facts -/

theorem takeMemorySnapshot_arts_eq (env : Env) (c : Config) (tick : Nat) :
    ∀ a ∈ (takeMemorySnapshot env c tick).2.1,
      a = ⟨"mem", env.clock tick, fileName c.Prefix "mem" (env.clock tick)⟩ := by
  intro a ha
  simp only [takeMemorySnapshot] at ha
  split_ifs at ha <;> simp_all

theorem takeBlockSnapshot_arts_eq (env : Env) (c : Config) (tick : Nat) :
    ∀ a ∈ (takeBlockSnapshot env c tick).2.1,
      a = ⟨"block", env.clock tick, fileName c.Prefix "block" (env.clock tick)⟩ := by
  intro a ha
  simp only [takeBlockSnapshot] at ha
  split_ifs at ha <;> simp_all

theorem takeGoroutineSnapshot_arts_eq (env : Env) (c : Config) (tick : Nat) :
    ∀ a ∈ (takeGoroutineSnapshot env c tick).2.1,
      a = ⟨"goroutine", env.clock tick,
           fileName c.Prefix "goroutine" (env.clock tick)⟩ := by
  intro a ha
  simp only [takeGoroutineSnapshot] at ha
  split_ifs at ha <;> simp_all

theorem takeMutexSnapshot_arts_eq (env : Env) (c : Config) (tick : Nat) :
    ∀ a ∈ (takeMutexSnapshot env c tick).2.1,
      a = ⟨"mutex", env.clock tick, fileName c.Prefix "mutex" (env.clock tick)⟩ := by
  intro a ha
  simp only [takeMutexSnapshot] at ha
  split_ifs at ha <;> simp_all

theorem writeHeap_not_block (env : Env) (c : Config) (t : Nat) (n : String)
    (b : Bool) : Event.writeHeap n b ∉ (takeBlockSnapshot env c t).1 := by
  intro h
  simp only [takeBlockSnapshot, List.append_assoc, List.mem_append,
    List.mem_cons, List.mem_singleton] at h
  split_ifs at h <;> simp_all

theorem writeHeap_not_goro (env : Env) (c : Config) (t : Nat) (n : String)
    (b : Bool) : Event.writeHeap n b ∉ (takeGoroutineSnapshot env c t).1 := by
  intro h
  simp only [takeGoroutineSnapshot, List.append_assoc, List.mem_append,
    List.mem_cons, List.mem_singleton] at h
  split_ifs at h <;> simp_all

theorem writeHeap_not_mutex (env : Env) (c : Config) (t : Nat) (n : String)
    (b : Bool) : Event.writeHeap n b ∉ (takeMutexSnapshot env c t).1 := by
  intro h
  simp only [takeMutexSnapshot, List.append_assoc, List.mem_append,
    List.mem_cons, List.mem_singleton] at h
  split_ifs at h <;> simp_all

theorem writeHeap_not_closer (env : Env) (n2 n : String) (b : Bool) :
    Event.writeHeap n b ∉ closerTrace env n2 := by
  intro h
  simp only [closerTrace, List.mem_append, List.mem_singleton] at h
  split_ifs at h <;> simp_all

theorem block_attempt (env : Env) (c : Config) (t : Nat) :
    Event.writeProfile "block" (fileName c.Prefix "block" (env.clock t)) 2
        (env.createOk (fileName c.Prefix "block" (env.clock t))
          && env.writeOk (fileName c.Prefix "block" (env.clock t)))
      ∈ (takeBlockSnapshot env c t).1 := by
  simp [takeBlockSnapshot]

theorem goro_attempt (env : Env) (c : Config) (t : Nat) :
    Event.writeProfile "goroutine"
        (fileName c.Prefix "goroutine" (env.clock t)) 2
        (env.createOk (fileName c.Prefix "goroutine" (env.clock t))
          && env.writeOk (fileName c.Prefix "goroutine" (env.clock t)))
      ∈ (takeGoroutineSnapshot env c t).1 := by
  simp [takeGoroutineSnapshot]

theorem mutex_attempt (env : Env) (c : Config) (t : Nat) :
    Event.writeProfile "mutex" (fileName c.Prefix "mutex" (env.clock t)) 2
        (env.createOk (fileName c.Prefix "mutex" (env.clock t))
          && env.writeOk (fileName c.Prefix "mutex" (env.clock t)))
      ∈ (takeMutexSnapshot env c t).1 := by
  simp [takeMutexSnapshot]

theorem memfail_log (env : Env) (c : Config) (t : Nat)
    (hfail : env.createOk (fileName c.Prefix "mem" (env.clock t)) = false) :
    Event.logMsg ("create failed: " ++ fileName c.Prefix "mem" (env.clock t))
      ∈ (takeMemorySnapshot env c t).1 := by
  simp [takeMemorySnapshot, hfail]

theorem memfail_no_arts (env : Env) (c : Config) (t : Nat)
    (hfail : env.createOk (fileName c.Prefix "mem" (env.clock t)) = false) :
    (takeMemorySnapshot env c t).2.1 = [] := by
  simp [takeMemorySnapshot, hfail]

/-! ## Ticks at which each kind's snapshot block runs, and exact-tick
decomposition of a snapshot -/

/-- The tick index at which the block part of a `TakeSnapshot` call
starting at `tick` reads the clock. -/
def blockTick (env : Env) (c : Config) (tick : Nat) : Nat :=
  (memStep env c tick).2.2

/-- The tick index at which the goroutine part reads the clock. -/
def goroTick (env : Env) (c : Config) (tick : Nat) : Nat :=
  (blockStep env c (blockTick env c tick)).2.2

/-- The tick index at which the mutex part reads the clock. -/
def mutexTick (env : Env) (c : Config) (tick : Nat) : Nat :=
  (goroStep env c (goroTick env c tick)).2.2

theorem memStep_tick (env : Env) (c : Config) (t : Nat) :
    (memStep env c t).2.2 = t ∨ (memStep env c t).2.2 = t + 1 := by
  unfold memStep
  split
  · exact Or.inr rfl
  · exact Or.inl rfl

theorem blockStep_tick (env : Env) (c : Config) (t : Nat) :
    (blockStep env c t).2.2 = t ∨ (blockStep env c t).2.2 = t + 1 := by
  unfold blockStep
  split
  · exact Or.inr rfl
  · exact Or.inl rfl

theorem goroStep_tick (env : Env) (c : Config) (t : Nat) :
    (goroStep env c t).2.2 = t ∨ (goroStep env c t).2.2 = t + 1 := by
  unfold goroStep
  split
  · exact Or.inr rfl
  · exact Or.inl rfl

theorem blockTick_cases (env : Env) (c : Config) (tick : Nat) :
    blockTick env c tick = tick ∨ blockTick env c tick = tick + 1 :=
  memStep_tick env c tick

theorem goroTick_cases (env : Env) (c : Config) (tick : Nat) :
    goroTick env c tick = blockTick env c tick
    ∨ goroTick env c tick = blockTick env c tick + 1 :=
  blockStep_tick env c (blockTick env c tick)

theorem mutexTick_cases (env : Env) (c : Config) (tick : Nat) :
    mutexTick env c tick = goroTick env c tick
    ∨ mutexTick env c tick = goroTick env c tick + 1 :=
  goroStep_tick env c (goroTick env c tick)

/-- One snapshot reads the clock only at ticks in `[tick, tick + 4)`. -/
theorem snap_ticks_window (env : Env) (c : Config) (tick : Nat) :
    tick ≤ blockTick env c tick ∧ blockTick env c tick < tick + 4
    ∧ tick ≤ goroTick env c tick ∧ goroTick env c tick < tick + 4
    ∧ tick ≤ mutexTick env c tick ∧ mutexTick env c tick < tick + 4 := by
  rcases blockTick_cases env c tick with h1 | h1 <;>
    rcases goroTick_cases env c tick with h2 | h2 <;>
      rcases mutexTick_cases env c tick with h3 | h3 <;>
        omega

/-- Exact-tick version of the trace decomposition: each kind's segment runs
at its determined tick. -/
theorem mem_TakeSnapshot_cases_exact (env : Env) (p : Profiler) (tick : Nat)
    {x : Event} (h : x ∈ (TakeSnapshot env p tick).evs) :
    x ∈ takeCPUSnapshot
    ∨ x ∈ (takeMemorySnapshot env p.conf tick).1
    ∨ x ∈ (takeBlockSnapshot env p.conf (blockTick env p.conf tick)).1
    ∨ x ∈ (takeGoroutineSnapshot env p.conf (goroTick env p.conf tick)).1
    ∨ x ∈ (takeMutexSnapshot env p.conf (mutexTick env p.conf tick)).1
    ∨ (∃ n, n ∈ p.closers ∧ x ∈ closerTrace env n) := by
  rw [TakeSnapshot_evs] at h
  rcases List.mem_append.1 h with h | h
  · simp only [snapshotKinds, List.append_assoc, List.mem_append] at h
    rcases h with h | h | h | h | h
    · rcases mem_ite_elim h with h | h
      · exact Or.inl h
      · exact absurd h (List.not_mem_nil x)
    · exact Or.inr (Or.inl (memStep_evs_cases env p.conf tick h))
    · exact Or.inr (Or.inr (Or.inl (blockStep_evs_cases env p.conf _ h)))
    · exact Or.inr (Or.inr (Or.inr (Or.inl
        (goroStep_evs_cases env p.conf _ h))))
    · exact Or.inr (Or.inr (Or.inr (Or.inr (Or.inl
        (mutexStep_evs_cases env p.conf _ h)))))
  · rcases List.mem_flatMap.1 h with ⟨n, hn, hx⟩
    exact Or.inr (Or.inr (Or.inr (Or.inr (Or.inr ⟨n, hn, hx⟩))))

/-- Exact-tick version of the artifact decomposition. -/
theorem mem_TakeSnapshot_arts_cases_exact (env : Env) (p : Profiler)
    (tick : Nat) {a : Artifact} (h : a ∈ (TakeSnapshot env p tick).arts) :
    a ∈ (takeMemorySnapshot env p.conf tick).2.1
    ∨ a ∈ (takeBlockSnapshot env p.conf (blockTick env p.conf tick)).2.1
    ∨ a ∈ (takeGoroutineSnapshot env p.conf (goroTick env p.conf tick)).2.1
    ∨ a ∈ (takeMutexSnapshot env p.conf (mutexTick env p.conf tick)).2.1 := by
  have h2 : a ∈ (snapshotKinds env p.conf tick).2.1 := h
  simp only [snapshotKinds, List.append_assoc, List.mem_append] at h2
  rcases h2 with h2 | h2 | h2 | h2
  · exact Or.inl (memStep_arts_cases env p.conf tick h2)
  · exact Or.inr (Or.inl (blockStep_arts_cases env p.conf _ h2))
  · exact Or.inr (Or.inr (Or.inl (goroStep_arts_cases env p.conf _ h2)))
  · exact Or.inr (Or.inr (Or.inr (mutexStep_arts_cases env p.conf _ h2)))

/-! ## Per-kind failure facts -/

theorem blockfail_log (env : Env) (c : Config) (t : Nat)
    (hfail : env.createOk (fileName c.Prefix "block" (env.clock t)) = false) :
    Event.logMsg ("create failed: " ++ fileName c.Prefix "block" (env.clock t))
      ∈ (takeBlockSnapshot env c t).1 := by
  simp [takeBlockSnapshot, hfail]

theorem gorofail_log (env : Env) (c : Config) (t : Nat)
    (hfail : env.createOk (fileName c.Prefix "goroutine" (env.clock t))
      = false) :
    Event.logMsg
        ("create failed: " ++ fileName c.Prefix "goroutine" (env.clock t))
      ∈ (takeGoroutineSnapshot env c t).1 := by
  simp [takeGoroutineSnapshot, hfail]

theorem mutexfail_log (env : Env) (c : Config) (t : Nat)
    (hfail : env.createOk (fileName c.Prefix "mutex" (env.clock t)) = false) :
    Event.logMsg ("create failed: " ++ fileName c.Prefix "mutex" (env.clock t))
      ∈ (takeMutexSnapshot env c t).1 := by
  simp [takeMutexSnapshot, hfail]

theorem memwfail_log (env : Env) (c : Config) (t : Nat)
    (hcok : env.createOk (fileName c.Prefix "mem" (env.clock t)) = true)
    (hwf : env.writeOk (fileName c.Prefix "mem" (env.clock t)) = false) :
    Event.logMsg ("write failed: " ++ fileName c.Prefix "mem" (env.clock t))
      ∈ (takeMemorySnapshot env c t).1 := by
  simp [takeMemorySnapshot, hcok, hwf]

theorem blockwfail_log (env : Env) (c : Config) (t : Nat)
    (hcok : env.createOk (fileName c.Prefix "block" (env.clock t)) = true)
    (hwf : env.writeOk (fileName c.Prefix "block" (env.clock t)) = false) :
    Event.logMsg ("write failed: " ++ fileName c.Prefix "block" (env.clock t))
      ∈ (takeBlockSnapshot env c t).1 := by
  simp [takeBlockSnapshot, hcok, hwf]

theorem gorowfail_log (env : Env) (c : Config) (t : Nat)
    (hcok : env.createOk (fileName c.Prefix "goroutine" (env.clock t)) = true)
    (hwf : env.writeOk (fileName c.Prefix "goroutine" (env.clock t))
      = false) :
    Event.logMsg
        ("write failed: " ++ fileName c.Prefix "goroutine" (env.clock t))
      ∈ (takeGoroutineSnapshot env c t).1 := by
  simp [takeGoroutineSnapshot, hcok, hwf]

theorem mutexwfail_log (env : Env) (c : Config) (t : Nat)
    (hcok : env.createOk (fileName c.Prefix "mutex" (env.clock t)) = true)
    (hwf : env.writeOk (fileName c.Prefix "mutex" (env.clock t)) = false) :
    Event.logMsg ("write failed: " ++ fileName c.Prefix "mutex" (env.clock t))
      ∈ (takeMutexSnapshot env c t).1 := by
  simp [takeMutexSnapshot, hcok, hwf]

theorem blockfail_no_arts (env : Env) (c : Config) (t : Nat)
    (hfail : env.createOk (fileName c.Prefix "block" (env.clock t)) = false) :
    (takeBlockSnapshot env c t).2.1 = [] := by
  simp [takeBlockSnapshot, hfail]

theorem gorofail_no_arts (env : Env) (c : Config) (t : Nat)
    (hfail : env.createOk (fileName c.Prefix "goroutine" (env.clock t))
      = false) :
    (takeGoroutineSnapshot env c t).2.1 = [] := by
  simp [takeGoroutineSnapshot, hfail]

theorem mutexfail_no_arts (env : Env) (c : Config) (t : Nat)
    (hfail : env.createOk (fileName c.Prefix "mutex" (env.clock t)) = false) :
    (takeMutexSnapshot env c t).2.1 = [] := by
  simp [takeMutexSnapshot, hfail]

/-! ## No successful write events for a kind whose write pipeline failed -/

theorem writeHeap_true_not_memwok (env : Env) (c : Config) (t : Nat)
    (hwok : (env.createOk (fileName c.Prefix "mem" (env.clock t))
      && env.writeOk (fileName c.Prefix "mem" (env.clock t))) = false)
    (n : String) :
    Event.writeHeap n true ∉ (takeMemorySnapshot env c t).1 := by
  intro h
  simp only [takeMemorySnapshot, hwok, List.append_assoc, List.mem_append,
    List.mem_cons, List.mem_singleton] at h
  split_ifs at h <;> simp_all

theorem wp_true_not_blockwok (env : Env) (c : Config) (t : Nat)
    (hwok : (env.createOk (fileName c.Prefix "block" (env.clock t))
      && env.writeOk (fileName c.Prefix "block" (env.clock t))) = false)
    (n : String) :
    Event.writeProfile "block" n 2 true ∉ (takeBlockSnapshot env c t).1 := by
  intro h
  simp only [takeBlockSnapshot, hwok, List.append_assoc, List.mem_append,
    List.mem_cons, List.mem_singleton] at h
  split_ifs at h <;> simp_all

theorem wp_true_not_gorowok (env : Env) (c : Config) (t : Nat)
    (hwok : (env.createOk (fileName c.Prefix "goroutine" (env.clock t))
      && env.writeOk (fileName c.Prefix "goroutine" (env.clock t))) = false)
    (n : String) :
    Event.writeProfile "goroutine" n 2 true
      ∉ (takeGoroutineSnapshot env c t).1 := by
  intro h
  simp only [takeGoroutineSnapshot, hwok, List.append_assoc, List.mem_append,
    List.mem_cons, List.mem_singleton] at h
  split_ifs at h <;> simp_all

theorem wp_true_not_mutexwok (env : Env) (c : Config) (t : Nat)
    (hwok : (env.createOk (fileName c.Prefix "mutex" (env.clock t))
      && env.writeOk (fileName c.Prefix "mutex" (env.clock t))) = false)
    (n : String) :
    Event.writeProfile "mutex" n 2 true ∉ (takeMutexSnapshot env c t).1 := by
  intro h
  simp only [takeMutexSnapshot, hwok, List.append_assoc, List.mem_append,
    List.mem_cons, List.mem_singleton] at h
  split_ifs at h <;> simp_all

theorem wp_not_cpu (pn n : String) (d : Nat) (b : Bool) :
    Event.writeProfile pn n d b ∉ takeCPUSnapshot := by
  simp [takeCPUSnapshot]

theorem wp_not_memSnap (env : Env) (c : Config) (t : Nat) (pn n : String)
    (d : Nat) (b : Bool) :
    Event.writeProfile pn n d b ∉ (takeMemorySnapshot env c t).1 := by
  intro h
  simp only [takeMemorySnapshot, List.append_assoc, List.mem_append,
    List.mem_cons, List.mem_singleton] at h
  split_ifs at h <;> simp_all

theorem wp_not_closer (env : Env) (m pn n : String) (d : Nat) (b : Bool) :
    Event.writeProfile pn n d b ∉ closerTrace env m := by
  intro h
  simp only [closerTrace, List.mem_append, List.mem_singleton] at h
  split_ifs at h <;> simp_all

theorem wp_ne_not_blockSnap (env : Env) (c : Config) (t : Nat) {pn : String}
    (hpn : pn ≠ "block") (n : String) (d : Nat) (b : Bool) :
    Event.writeProfile pn n d b ∉ (takeBlockSnapshot env c t).1 := by
  intro h
  simp only [takeBlockSnapshot, List.append_assoc, List.mem_append,
    List.mem_cons, List.mem_singleton] at h
  split_ifs at h <;> simp_all

theorem wp_ne_not_goroSnap (env : Env) (c : Config) (t : Nat) {pn : String}
    (hpn : pn ≠ "goroutine") (n : String) (d : Nat) (b : Bool) :
    Event.writeProfile pn n d b ∉ (takeGoroutineSnapshot env c t).1 := by
  intro h
  simp only [takeGoroutineSnapshot, List.append_assoc, List.mem_append,
    List.mem_cons, List.mem_singleton] at h
  split_ifs at h <;> simp_all

theorem wp_ne_not_mutexSnap (env : Env) (c : Config) (t : Nat) {pn : String}
    (hpn : pn ≠ "mutex") (n : String) (d : Nat) (b : Bool) :
    Event.writeProfile pn n d b ∉ (takeMutexSnapshot env c t).1 := by
  intro h
  simp only [takeMutexSnapshot, List.append_assoc, List.mem_append,
    List.mem_cons, List.mem_singleton] at h
  split_ifs at h <;> simp_all

theorem heap_attempt (env : Env) (c : Config) (t : Nat) :
    Event.writeHeap (fileName c.Prefix "mem" (env.clock t))
        (env.createOk (fileName c.Prefix "mem" (env.clock t))
          && env.writeOk (fileName c.Prefix "mem" (env.clock t)))
      ∈ (takeMemorySnapshot env c t).1 := by
  simp [takeMemorySnapshot]

/-! ## Membership introduction for a chosen segment -/

theorem mem_snap_of_mem_cpu (env : Env) (p : Profiler) (tick : Nat)
    (hc : p.conf.CPU = true) {x : Event} (hx : x ∈ takeCPUSnapshot) :
    x ∈ (TakeSnapshot env p tick).evs := by
  rw [TakeSnapshot_evs]
  refine List.mem_append.2 (Or.inl ?_)
  simp only [snapshotKinds, hc, List.append_assoc, List.mem_append, if_true]
  tauto

theorem mem_snap_of_mem_mem (env : Env) (p : Profiler) (tick : Nat)
    (hm : p.conf.Memory = true) {x : Event}
    (hx : x ∈ (takeMemorySnapshot env p.conf tick).1) :
    x ∈ (TakeSnapshot env p tick).evs := by
  rw [TakeSnapshot_evs]
  refine List.mem_append.2 (Or.inl ?_)
  simp only [snapshotKinds, List.append_assoc, List.mem_append]
  refine Or.inr (Or.inl ?_)
  simpa [memStep, hm] using hx

theorem mem_snap_of_mem_block (env : Env) (p : Profiler) (tick : Nat)
    (hb : p.conf.Block = true) {x : Event}
    (hx : x ∈ (takeBlockSnapshot env p.conf
      ((memStep env p.conf tick).2.2)).1) :
    x ∈ (TakeSnapshot env p tick).evs := by
  rw [TakeSnapshot_evs]
  refine List.mem_append.2 (Or.inl ?_)
  simp only [snapshotKinds, List.append_assoc, List.mem_append]
  refine Or.inr (Or.inr (Or.inl ?_))
  simpa [blockStep, hb] using hx

theorem mem_snap_of_mem_goro (env : Env) (p : Profiler) (tick : Nat)
    (hg : p.conf.Goroutine = true) {x : Event}
    (hx : x ∈ (takeGoroutineSnapshot env p.conf
      ((blockStep env p.conf ((memStep env p.conf tick).2.2)).2.2)).1) :
    x ∈ (TakeSnapshot env p tick).evs := by
  rw [TakeSnapshot_evs]
  refine List.mem_append.2 (Or.inl ?_)
  simp only [snapshotKinds, List.append_assoc, List.mem_append]
  refine Or.inr (Or.inr (Or.inr (Or.inl ?_)))
  simpa [goroStep, hg] using hx

theorem mem_snap_of_mem_mutex (env : Env) (p : Profiler) (tick : Nat)
    (hmx : p.conf.Mutex = true) {x : Event}
    (hx : x ∈ (takeMutexSnapshot env p.conf
      ((goroStep env p.conf
        ((blockStep env p.conf ((memStep env p.conf tick).2.2)).2.2)).2.2)).1) :
    x ∈ (TakeSnapshot env p tick).evs := by
  rw [TakeSnapshot_evs]
  refine List.mem_append.2 (Or.inl ?_)
  simp only [snapshotKinds, List.append_assoc, List.mem_append]
  refine Or.inr (Or.inr (Or.inr (Or.inr ?_)))
  simpa [mutexStep, hmx] using hx

/-- C4: `TakeSnapshot` (a total function in this model — it returns
normally and propagates no error) lets every enabled kind attempt its own
write, whatever the filesystem does; and for each artifact-writing kind
(memory, block, goroutine, mutex), if opening that kind's artifact fails
the failure is logged, the kind never produces a successful write and
persists no artifact, and if the open succeeds but the write fails the
write failure is logged and the kind still has no successful write — while
all the other enabled kinds' attempts are unaffected. -/
theorem claim_C4 (env : Env) (p : Profiler) (tick : Nat) :
    ((p.conf.CPU = true →
        Event.stopCPUProfile ∈ (TakeSnapshot env p tick).evs)
     ∧ (p.conf.Memory = true →
         ∃ n b, Event.writeHeap n b ∈ (TakeSnapshot env p tick).evs)
     ∧ (p.conf.Block = true →
         ∃ n b,
           Event.writeProfile "block" n 2 b ∈ (TakeSnapshot env p tick).evs)
     ∧ (p.conf.Goroutine = true →
         ∃ n b,
           Event.writeProfile "goroutine" n 2 b
             ∈ (TakeSnapshot env p tick).evs)
     ∧ (p.conf.Mutex = true →
         ∃ n b,
           Event.writeProfile "mutex" n 2 b ∈ (TakeSnapshot env p tick).evs))
    ∧ (p.conf.Memory = true →
        env.createOk (fileName p.conf.Prefix "mem" (env.clock tick))
          = false →
        Event.logMsg
            ("create failed: " ++ fileName p.conf.Prefix "mem"
              (env.clock tick))
          ∈ (TakeSnapshot env p tick).evs
        ∧ (∀ n, Event.writeHeap n true ∉ (TakeSnapshot env p tick).evs)
        ∧ (∀ a ∈ (TakeSnapshot env p tick).arts, a.kind ≠ "mem"))
    ∧ (p.conf.Memory = true →
        env.createOk (fileName p.conf.Prefix "mem" (env.clock tick)) = true →
        env.writeOk (fileName p.conf.Prefix "mem" (env.clock tick)) = false →
        Event.logMsg
            ("write failed: " ++ fileName p.conf.Prefix "mem"
              (env.clock tick))
          ∈ (TakeSnapshot env p tick).evs
        ∧ (∀ n, Event.writeHeap n true ∉ (TakeSnapshot env p tick).evs))
    ∧ (p.conf.Block = true →
        env.createOk (fileName p.conf.Prefix "block"
            (env.clock (blockTick env p.conf tick))) = false →
        Event.logMsg
            ("create failed: " ++ fileName p.conf.Prefix "block"
              (env.clock (blockTick env p.conf tick)))
          ∈ (TakeSnapshot env p tick).evs
        ∧ (∀ n, Event.writeProfile "block" n 2 true
            ∉ (TakeSnapshot env p tick).evs)
        ∧ (∀ a ∈ (TakeSnapshot env p tick).arts, a.kind ≠ "block"))
    ∧ (p.conf.Block = true →
        env.createOk (fileName p.conf.Prefix "block"
            (env.clock (blockTick env p.conf tick))) = true →
        env.writeOk (fileName p.conf.Prefix "block"
            (env.clock (blockTick env p.conf tick))) = false →
        Event.logMsg
            ("write failed: " ++ fileName p.conf.Prefix "block"
              (env.clock (blockTick env p.conf tick)))
          ∈ (TakeSnapshot env p tick).evs
        ∧ (∀ n, Event.writeProfile "block" n 2 true
            ∉ (TakeSnapshot env p tick).evs))
    ∧ (p.conf.Goroutine = true →
        env.createOk (fileName p.conf.Prefix "goroutine"
            (env.clock (goroTick env p.conf tick))) = false →
        Event.logMsg
            ("create failed: " ++ fileName p.conf.Prefix "goroutine"
              (env.clock (goroTick env p.conf tick)))
          ∈ (TakeSnapshot env p tick).evs
        ∧ (∀ n, Event.writeProfile "goroutine" n 2 true
            ∉ (TakeSnapshot env p tick).evs)
        ∧ (∀ a ∈ (TakeSnapshot env p tick).arts, a.kind ≠ "goroutine"))
    ∧ (p.conf.Goroutine = true →
        env.createOk (fileName p.conf.Prefix "goroutine"
            (env.clock (goroTick env p.conf tick))) = true →
        env.writeOk (fileName p.conf.Prefix "goroutine"
            (env.clock (goroTick env p.conf tick))) = false →
        Event.logMsg
            ("write failed: " ++ fileName p.conf.Prefix "goroutine"
              (env.clock (goroTick env p.conf tick)))
          ∈ (TakeSnapshot env p tick).evs
        ∧ (∀ n, Event.writeProfile "goroutine" n 2 true
            ∉ (TakeSnapshot env p tick).evs))
    ∧ (p.conf.Mutex = true →
        env.createOk (fileName p.conf.Prefix "mutex"
            (env.clock (mutexTick env p.conf tick))) = false →
        Event.logMsg
            ("create failed: " ++ fileName p.conf.Prefix "mutex"
              (env.clock (mutexTick env p.conf tick)))
          ∈ (TakeSnapshot env p tick).evs
        ∧ (∀ n, Event.writeProfile "mutex" n 2 true
            ∉ (TakeSnapshot env p tick).evs)
        ∧ (∀ a ∈ (TakeSnapshot env p tick).arts, a.kind ≠ "mutex"))
    ∧ (p.conf.Mutex = true →
        env.createOk (fileName p.conf.Prefix "mutex"
            (env.clock (mutexTick env p.conf tick))) = true →
        env.writeOk (fileName p.conf.Prefix "mutex"
            (env.clock (mutexTick env p.conf tick))) = false →
        Event.logMsg
            ("write failed: " ++ fileName p.conf.Prefix "mutex"
              (env.clock (mutexTick env p.conf tick)))
          ∈ (TakeSnapshot env p tick).evs
        ∧ (∀ n, Event.writeProfile "mutex" n 2 true
            ∉ (TakeSnapshot env p tick).evs)) := by
  refine ⟨⟨?_, ?_, ?_, ?_, ?_⟩, ?_, ?_, ?_, ?_, ?_, ?_, ?_, ?_⟩
  · intro hc
    exact mem_snap_of_mem_cpu env p tick hc (by simp [takeCPUSnapshot])
  · intro hm
    exact ⟨_, _, mem_snap_of_mem_mem env p tick hm
      (heap_attempt env p.conf tick)⟩
  · intro hb
    exact ⟨_, _, mem_snap_of_mem_block env p tick hb
      (block_attempt env p.conf _)⟩
  · intro hg
    exact ⟨_, _, mem_snap_of_mem_goro env p tick hg
      (goro_attempt env p.conf _)⟩
  · intro hmx
    exact ⟨_, _, mem_snap_of_mem_mutex env p tick hmx
      (mutex_attempt env p.conf _)⟩
  · intro hm hfail
    refine ⟨mem_snap_of_mem_mem env p tick hm
      (memfail_log env p.conf tick hfail), ?_, ?_⟩
    · intro n h
      rcases mem_TakeSnapshot_cases_exact env p tick h with
        h | h | h | h | h | ⟨n2, _, h⟩
      · simp [takeCPUSnapshot] at h
      · exact writeHeap_true_not_memwok env p.conf tick
          (by rw [hfail]; rfl) n h
      · exact writeHeap_not_block env p.conf _ n true h
      · exact writeHeap_not_goro env p.conf _ n true h
      · exact writeHeap_not_mutex env p.conf _ n true h
      · exact writeHeap_not_closer env n2 n true h
    · intro a ha
      rcases mem_TakeSnapshot_arts_cases_exact env p tick ha with
        h | h | h | h
      · rw [memfail_no_arts env p.conf tick hfail] at h
        exact absurd h (List.not_mem_nil a)
      · rw [takeBlockSnapshot_arts_eq env p.conf _ a h]
        exact (by decide : ("block" : String) ≠ "mem")
      · rw [takeGoroutineSnapshot_arts_eq env p.conf _ a h]
        exact (by decide : ("goroutine" : String) ≠ "mem")
      · rw [takeMutexSnapshot_arts_eq env p.conf _ a h]
        exact (by decide : ("mutex" : String) ≠ "mem")
  · intro hm hcok hwf
    refine ⟨mem_snap_of_mem_mem env p tick hm
      (memwfail_log env p.conf tick hcok hwf), ?_⟩
    intro n h
    rcases mem_TakeSnapshot_cases_exact env p tick h with
      h | h | h | h | h | ⟨n2, _, h⟩
    · simp [takeCPUSnapshot] at h
    · exact writeHeap_true_not_memwok env p.conf tick
        (by rw [hcok, hwf]; rfl) n h
    · exact writeHeap_not_block env p.conf _ n true h
    · exact writeHeap_not_goro env p.conf _ n true h
    · exact writeHeap_not_mutex env p.conf _ n true h
    · exact writeHeap_not_closer env n2 n true h
  · intro hb hfail
    refine ⟨mem_snap_of_mem_block env p tick hb
      (blockfail_log env p.conf _ hfail), ?_, ?_⟩
    · intro n h
      rcases mem_TakeSnapshot_cases_exact env p tick h with
        h | h | h | h | h | ⟨n2, _, h⟩
      · exact wp_not_cpu "block" n 2 true h
      · exact wp_not_memSnap env p.conf tick "block" n 2 true h
      · exact wp_true_not_blockwok env p.conf _ (by rw [hfail]; rfl) n h
      · exact wp_ne_not_goroSnap env p.conf _ (by decide) n 2 true h
      · exact wp_ne_not_mutexSnap env p.conf _ (by decide) n 2 true h
      · exact wp_not_closer env n2 "block" n 2 true h
    · intro a ha
      rcases mem_TakeSnapshot_arts_cases_exact env p tick ha with
        h | h | h | h
      · rw [takeMemorySnapshot_arts_eq env p.conf tick a h]
        exact (by decide : ("mem" : String) ≠ "block")
      · rw [blockfail_no_arts env p.conf _ hfail] at h
        exact absurd h (List.not_mem_nil a)
      · rw [takeGoroutineSnapshot_arts_eq env p.conf _ a h]
        exact (by decide : ("goroutine" : String) ≠ "block")
      · rw [takeMutexSnapshot_arts_eq env p.conf _ a h]
        exact (by decide : ("mutex" : String) ≠ "block")
  · intro hb hcok hwf
    refine ⟨mem_snap_of_mem_block env p tick hb
      (blockwfail_log env p.conf _ hcok hwf), ?_⟩
    intro n h
    rcases mem_TakeSnapshot_cases_exact env p tick h with
      h | h | h | h | h | ⟨n2, _, h⟩
    · exact wp_not_cpu "block" n 2 true h
    · exact wp_not_memSnap env p.conf tick "block" n 2 true h
    · exact wp_true_not_blockwok env p.conf _ (by rw [hcok, hwf]; rfl) n h
    · exact wp_ne_not_goroSnap env p.conf _ (by decide) n 2 true h
    · exact wp_ne_not_mutexSnap env p.conf _ (by decide) n 2 true h
    · exact wp_not_closer env n2 "block" n 2 true h
  · intro hg hfail
    refine ⟨mem_snap_of_mem_goro env p tick hg
      (gorofail_log env p.conf _ hfail), ?_, ?_⟩
    · intro n h
      rcases mem_TakeSnapshot_cases_exact env p tick h with
        h | h | h | h | h | ⟨n2, _, h⟩
      · exact wp_not_cpu "goroutine" n 2 true h
      · exact wp_not_memSnap env p.conf tick "goroutine" n 2 true h
      · exact wp_ne_not_blockSnap env p.conf _ (by decide) n 2 true h
      · exact wp_true_not_gorowok env p.conf _ (by rw [hfail]; rfl) n h
      · exact wp_ne_not_mutexSnap env p.conf _ (by decide) n 2 true h
      · exact wp_not_closer env n2 "goroutine" n 2 true h
    · intro a ha
      rcases mem_TakeSnapshot_arts_cases_exact env p tick ha with
        h | h | h | h
      · rw [takeMemorySnapshot_arts_eq env p.conf tick a h]
        exact (by decide : ("mem" : String) ≠ "goroutine")
      · rw [takeBlockSnapshot_arts_eq env p.conf _ a h]
        exact (by decide : ("block" : String) ≠ "goroutine")
      · rw [gorofail_no_arts env p.conf _ hfail] at h
        exact absurd h (List.not_mem_nil a)
      · rw [takeMutexSnapshot_arts_eq env p.conf _ a h]
        exact (by decide : ("mutex" : String) ≠ "goroutine")
  · intro hg hcok hwf
    refine ⟨mem_snap_of_mem_goro env p tick hg
      (gorowfail_log env p.conf _ hcok hwf), ?_⟩
    intro n h
    rcases mem_TakeSnapshot_cases_exact env p tick h with
      h | h | h | h | h | ⟨n2, _, h⟩
    · exact wp_not_cpu "goroutine" n 2 true h
    · exact wp_not_memSnap env p.conf tick "goroutine" n 2 true h
    · exact wp_ne_not_blockSnap env p.conf _ (by decide) n 2 true h
    · exact wp_true_not_gorowok env p.conf _ (by rw [hcok, hwf]; rfl) n h
    · exact wp_ne_not_mutexSnap env p.conf _ (by decide) n 2 true h
    · exact wp_not_closer env n2 "goroutine" n 2 true h
  · intro hmx hfail
    refine ⟨mem_snap_of_mem_mutex env p tick hmx
      (mutexfail_log env p.conf _ hfail), ?_, ?_⟩
    · intro n h
      rcases mem_TakeSnapshot_cases_exact env p tick h with
        h | h | h | h | h | ⟨n2, _, h⟩
      · exact wp_not_cpu "mutex" n 2 true h
      · exact wp_not_memSnap env p.conf tick "mutex" n 2 true h
      · exact wp_ne_not_blockSnap env p.conf _ (by decide) n 2 true h
      · exact wp_ne_not_goroSnap env p.conf _ (by decide) n 2 true h
      · exact wp_true_not_mutexwok env p.conf _ (by rw [hfail]; rfl) n h
      · exact wp_not_closer env n2 "mutex" n 2 true h
    · intro a ha
      rcases mem_TakeSnapshot_arts_cases_exact env p tick ha with
        h | h | h | h
      · rw [takeMemorySnapshot_arts_eq env p.conf tick a h]
        exact (by decide : ("mem" : String) ≠ "mutex")
      · rw [takeBlockSnapshot_arts_eq env p.conf _ a h]
        exact (by decide : ("block" : String) ≠ "mutex")
      · rw [takeGoroutineSnapshot_arts_eq env p.conf _ a h]
        exact (by decide : ("goroutine" : String) ≠ "mutex")
      · rw [mutexfail_no_arts env p.conf _ hfail] at h
        exact absurd h (List.not_mem_nil a)
  · intro hmx hcok hwf
    refine ⟨mem_snap_of_mem_mutex env p tick hmx
      (mutexwfail_log env p.conf _ hcok hwf), ?_⟩
    intro n h
    rcases mem_TakeSnapshot_cases_exact env p tick h with
      h | h | h | h | h | ⟨n2, _, h⟩
    · exact wp_not_cpu "mutex" n 2 true h
    · exact wp_not_memSnap env p.conf tick "mutex" n 2 true h
    · exact wp_ne_not_blockSnap env p.conf _ (by decide) n 2 true h
    · exact wp_ne_not_goroSnap env p.conf _ (by decide) n 2 true h
    · exact wp_true_not_mutexwok env p.conf _ (by rw [hcok, hwf]; rfl) n h
    · exact wp_not_closer env n2 "mutex" n 2 true h

/-- Environment in which creating the block artifact of `confAll` at
wall-clock second 7 fails, while everything else succeeds. -/
def envBlockFail : Env :=
  ⟨fun _ => none,
   fun n => !(n == fileName "w." "block" 7),
   fun _ => true, fun _ => true, true, fun _ => 7⟩

/-- Configuration with every kind enabled. -/
def confAll : Config := ⟨true, true, true, true, true, "w.", "1s", 1, 0, 1⟩

theorem claim_C4_witness :
    (∃ n b, Event.writeHeap n b
        ∈ (TakeSnapshot envBlockFail (NewProfiler confAll) 0).evs)
    ∧ (Event.logMsg ("create failed: " ++ fileName "w." "block" 7)
          ∈ (TakeSnapshot envBlockFail (NewProfiler confAll) 0).evs
        ∧ (∀ n, Event.writeProfile "block" n 2 true
            ∉ (TakeSnapshot envBlockFail (NewProfiler confAll) 0).evs)
        ∧ (∀ a ∈ (TakeSnapshot envBlockFail (NewProfiler confAll) 0).arts,
            a.kind ≠ "block"))
    ∧ (∃ n b, Event.writeProfile "mutex" n 2 b
        ∈ (TakeSnapshot envBlockFail (NewProfiler confAll) 0).evs) :=
  have h := claim_C4 envBlockFail (NewProfiler confAll) 0
  ⟨h.1.2.1 rfl, h.2.2.2.1 rfl (by decide), h.1.2.2.2.2 rfl⟩

/-! ## Artifact naming -/

/-- An artifact is well-named for prefix `pre`: its file name is
`pre ++ kind ++ "." ++ time ++ ".pprof"` and its kind label is one of the
five supported kinds. -/
def NamedArt (pre : String) (a : Artifact) : Prop :=
  a.name = fileName pre a.kind a.time ∧
  a.kind ∈ (["cpu", "mem", "block", "goroutine", "mutex"] : List String)

theorem snap_arts_named (env : Env) (p : Profiler) (tick : Nat) :
    ∀ a ∈ (TakeSnapshot env p tick).arts, NamedArt p.conf.Prefix a := by
  intro a ha
  rcases mem_TakeSnapshot_arts_cases env p tick ha with
    h | ⟨t, h⟩ | ⟨t, h⟩ | ⟨t, h⟩
  · rw [takeMemorySnapshot_arts_eq env p.conf tick a h]
    exact ⟨rfl, show ("mem" : String) ∈
      (["cpu", "mem", "block", "goroutine", "mutex"] : List String) by decide⟩
  · rw [takeBlockSnapshot_arts_eq env p.conf t a h]
    exact ⟨rfl, show ("block" : String) ∈
      (["cpu", "mem", "block", "goroutine", "mutex"] : List String) by decide⟩
  · rw [takeGoroutineSnapshot_arts_eq env p.conf t a h]
    exact ⟨rfl, show ("goroutine" : String) ∈
      (["cpu", "mem", "block", "goroutine", "mutex"] : List String) by decide⟩
  · rw [takeMutexSnapshot_arts_eq env p.conf t a h]
    exact ⟨rfl, show ("mutex" : String) ∈
      (["cpu", "mem", "block", "goroutine", "mutex"] : List String) by decide⟩

theorem snap_arts_time (env : Env) (p : Profiler) (tick : Nat) :
    ∀ a ∈ (TakeSnapshot env p tick).arts, ∃ k, a.time = env.clock k := by
  intro a ha
  rcases mem_TakeSnapshot_arts_cases env p tick ha with
    h | ⟨t, h⟩ | ⟨t, h⟩ | ⟨t, h⟩
  · rw [takeMemorySnapshot_arts_eq env p.conf tick a h]
    exact ⟨tick, rfl⟩
  · rw [takeBlockSnapshot_arts_eq env p.conf t a h]
    exact ⟨t, rfl⟩
  · rw [takeGoroutineSnapshot_arts_eq env p.conf t a h]
    exact ⟨t, rfl⟩
  · rw [takeMutexSnapshot_arts_eq env p.conf t a h]
    exact ⟨t, rfl⟩

theorem activate_ok_arts_named (env : Env) (p : Profiler) (tick : Nat)
    (s : StepOut) (h : activate env p tick = Except.ok s) :
    ∀ a ∈ s.arts, NamedArt p.conf.Prefix a := by
  cases hC : p.conf.CPU with
  | false =>
      simp only [activate, startProfilingCPU, hC, Bool.false_eq_true,
        if_false, reduceIte] at h
      cases h
      intro a ha
      exact absurd ha (List.not_mem_nil a)
  | true =>
      by_cases hcr : env.createOk (fileName p.conf.Prefix "cpu" (env.clock tick))
      · simp only [activate, startProfilingCPU, hC, hcr, if_true,
          reduceIte] at h
        cases h
        intro a ha
        simp only [List.mem_singleton] at ha
        rw [ha]
        exact ⟨rfl, show ("cpu" : String) ∈
          (["cpu", "mem", "block", "goroutine", "mutex"] : List String)
          by decide⟩
      · simp only [activate, startProfilingCPU, hC, hcr, if_true, reduceIte,
          Bool.false_eq_true, if_false] at h
        cases h

theorem prependOut_events (evs : List Event) (arts : List Artifact)
    (o : Outcome) : (prependOut evs arts o).events = evs ++ o.events := by
  cases o <;> rfl

theorem prependOut_artifacts (evs : List Event) (arts : List Artifact)
    (o : Outcome) : (prependOut evs arts o).artifacts = arts ++ o.artifacts := by
  cases o <;> rfl

theorem runHead_done_arts (env : Env) (p : Profiler) (tick : Nat) (o : Outcome)
    (h : runHead env p tick = Phase.done o) :
    o.artifacts = [] ∨
    ∃ s, activate env p tick = Except.ok s ∧ o.artifacts = s.arts := by
  unfold runHead at h
  rcases ha : activate env p tick with evs | s1 <;> rw [ha] at h <;>
    dsimp only at h
  · have ho := Phase.done.inj h
    rw [← ho]
    exact Or.inl rfl
  · by_cases hb : (p.conf.isOn && (p.conf.Interval != "")) = true
    · rw [if_pos hb] at h
      rcases hp : env.parseDuration p.conf.Interval with _ | d1 <;>
        rw [hp] at h <;> dsimp only at h
      · have ho := Phase.done.inj h
        refine Or.inr ⟨s1, rfl, ?_⟩
        rw [← ho]
        rfl
      · simp at h
    · rw [if_neg hb] at h
      have ho := Phase.done.inj h
      refine Or.inr ⟨s1, rfl, ?_⟩
      rw [← ho]
      rfl

/-- Every artifact a whole `Run` execution persists is well-named for the
starting configuration's prefix. -/
theorem run_arts_named (env : Env) (ws : List Wake) (p : Profiler)
    (tick : Nat) :
    ∀ a ∈ (run env ws p tick).artifacts, NamedArt p.conf.Prefix a := by
  induction ws generalizing p tick with
  | nil =>
      intro a ha
      simp only [run] at ha
      rcases hh : runHead env p tick with o | ⟨s1, d⟩ <;> rw [hh] at ha <;>
        dsimp only at ha
      · rcases runHead_done_arts env p tick o hh with h0 | ⟨s1, ha1, he⟩
        · rw [h0] at ha
          exact absurd ha (List.not_mem_nil a)
        · rw [he] at ha
          exact activate_ok_arts_named env p tick s1 ha1 a ha
      · have ha1 := (runHead_wait env p tick s1 d hh).1
        exact activate_ok_arts_named env p tick s1 ha1 a
          (by simpa [Outcome.artifacts] using ha)
  | cons w ws ih =>
      intro a ha
      simp only [run] at ha
      rcases hh : runHead env p tick with o | ⟨s1, d⟩ <;> rw [hh] at ha <;>
        dsimp only at ha
      · rcases runHead_done_arts env p tick o hh with h0 | ⟨s1, ha1, he⟩
        · rw [h0] at ha
          exact absurd ha (List.not_mem_nil a)
        · rw [he] at ha
          exact activate_ok_arts_named env p tick s1 ha1 a ha
      · have ha1 := (runHead_wait env p tick s1 d hh).1
        have hs1conf : s1.prof.conf = p.conf :=
          (activate_ok_prof env p tick s1 ha1).1
        cases w with
        | terminate =>
            simp only [Outcome.artifacts, List.mem_append] at ha
            rcases ha with ha | ha
            · exact activate_ok_arts_named env p tick s1 ha1 a ha
            · have := snap_arts_named env s1.prof s1.tick a ha
              rwa [hs1conf] at this
        | timer =>
            rw [prependOut_artifacts] at ha
            rcases List.mem_append.1 ha with ha | ha
            · rcases List.mem_append.1 ha with ha | ha
              · exact activate_ok_arts_named env p tick s1 ha1 a ha
              · have := snap_arts_named env s1.prof s1.tick a ha
                rwa [hs1conf] at this
            · have := ih (TakeSnapshot env s1.prof s1.tick).prof
                (TakeSnapshot env s1.prof s1.tick).tick a ha
              rw [TakeSnapshot_prof] at this
              simp only at this
              rwa [hs1conf] at this

/-- Clock that advances one second per call, everything else succeeding:
exhibits a snapshot whose artifacts carry different timestamps. -/
def envTick : Env :=
  ⟨fun _ => none, fun _ => true, fun _ => true, fun _ => true, true,
   fun k => k⟩

/-- Memory and goroutine profiling, empty prefix. -/
def confMG : Config := ⟨false, true, false, true, false, "", "", 1, 0, 0⟩

/-- C6 as frozen is false: under a clock that ticks between the memory and
the goroutine write of one `TakeSnapshot`, the two artifacts of that single
snapshot carry timestamps 0 and 1. -/
theorem claim_C6_counterexample :
    (TakeSnapshot envTick (NewProfiler confMG) 0).arts
      = [⟨"mem", 0, "mem.0.pprof"⟩, ⟨"goroutine", 1, "goroutine.1.pprof"⟩]
    ∧ ¬ (∀ a ∈ (TakeSnapshot envTick (NewProfiler confMG) 0).arts,
          ∀ b ∈ (TakeSnapshot envTick (NewProfiler confMG) 0).arts,
          a.time = b.time) := by
  constructor
  · rfl
  · intro h
    have := h ⟨"mem", 0, "mem.0.pprof"⟩ (by rw [show (TakeSnapshot envTick
        (NewProfiler confMG) 0).arts = [⟨"mem", 0, "mem.0.pprof"⟩,
        ⟨"goroutine", 1, "goroutine.1.pprof"⟩] from rfl]; simp)
      ⟨"goroutine", 1, "goroutine.1.pprof"⟩ (by rw [show (TakeSnapshot envTick
        (NewProfiler confMG) 0).arts = [⟨"mem", 0, "mem.0.pprof"⟩,
        ⟨"goroutine", 1, "goroutine.1.pprof"⟩] from rfl]; simp)
    simp at this

theorem snap_arts_kind_time (env : Env) (p : Profiler) (tick : Nat) :
    ∀ a ∈ (TakeSnapshot env p tick).arts,
      (a.kind = "mem" → a.time = env.clock tick)
      ∧ (a.kind = "block" → a.time = env.clock (blockTick env p.conf tick))
      ∧ (a.kind = "goroutine" →
          a.time = env.clock (goroTick env p.conf tick))
      ∧ (a.kind = "mutex" →
          a.time = env.clock (mutexTick env p.conf tick)) := by
  intro a ha
  rcases mem_TakeSnapshot_arts_cases_exact env p tick ha with h | h | h | h
  · rw [takeMemorySnapshot_arts_eq env p.conf tick a h]
    exact ⟨fun _ => rfl,
      fun hk => absurd hk (show ¬ (("mem" : String) = "block") by decide),
      fun hk => absurd hk (show ¬ (("mem" : String) = "goroutine") by decide),
      fun hk => absurd hk (show ¬ (("mem" : String) = "mutex") by decide)⟩
  · rw [takeBlockSnapshot_arts_eq env p.conf _ a h]
    exact
      ⟨fun hk => absurd hk (show ¬ (("block" : String) = "mem") by decide),
       fun _ => rfl,
       fun hk => absurd hk
         (show ¬ (("block" : String) = "goroutine") by decide),
       fun hk => absurd hk (show ¬ (("block" : String) = "mutex") by decide)⟩
  · rw [takeGoroutineSnapshot_arts_eq env p.conf _ a h]
    exact
      ⟨fun hk => absurd hk
         (show ¬ (("goroutine" : String) = "mem") by decide),
       fun hk => absurd hk
         (show ¬ (("goroutine" : String) = "block") by decide),
       fun _ => rfl,
       fun hk => absurd hk
         (show ¬ (("goroutine" : String) = "mutex") by decide)⟩
  · rw [takeMutexSnapshot_arts_eq env p.conf _ a h]
    exact
      ⟨fun hk => absurd hk (show ¬ (("mutex" : String) = "mem") by decide),
       fun hk => absurd hk (show ¬ (("mutex" : String) = "block") by decide),
       fun hk => absurd hk
         (show ¬ (("mutex" : String) = "goroutine") by decide),
       fun _ => rfl⟩

/-- Each artifact of one snapshot carries a clock value read at one of the
snapshot's own ticks (all within `[tick, tick + 4)`). -/
theorem snap_arts_time_window (env : Env) (p : Profiler) (tick : Nat) :
    ∀ a ∈ (TakeSnapshot env p tick).arts,
      ∃ k, tick ≤ k ∧ k < tick + 4 ∧ a.time = env.clock k := by
  intro a ha
  have hw := snap_ticks_window env p.conf tick
  rcases mem_TakeSnapshot_arts_cases_exact env p tick ha with h | h | h | h
  · rw [takeMemorySnapshot_arts_eq env p.conf tick a h]
    exact ⟨tick, Nat.le_refl _, by omega, rfl⟩
  · rw [takeBlockSnapshot_arts_eq env p.conf _ a h]
    exact ⟨blockTick env p.conf tick, hw.1, hw.2.1, rfl⟩
  · rw [takeGoroutineSnapshot_arts_eq env p.conf _ a h]
    exact ⟨goroTick env p.conf tick, hw.2.2.1, hw.2.2.2.1, rfl⟩
  · rw [takeMutexSnapshot_arts_eq env p.conf _ a h]
    exact ⟨mutexTick env p.conf tick, hw.2.2.2.2.1, hw.2.2.2.2.2, rfl⟩

/-- C6 amended: every persisted artifact of a whole `Run` — including the
CPU capture file opened at activation — is named
`<prefix><kind>.<unix-seconds>.pprof` with kind in the five supported
labels, under any clock; each artifact of a snapshot carries the wall-clock
second read when its own kind's write begins (the code reads the clock once
per kind, not once per snapshot); consequently all artifacts of one
snapshot share one timestamp whenever the wall clock does not advance
during that snapshot's clock reads. -/
theorem claim_C6_amended (env : Env) (ws : List Wake) (p : Profiler)
    (tick : Nat) :
    (∀ a ∈ (run env ws p tick).artifacts,
       a.name = fileName p.conf.Prefix a.kind a.time ∧
       a.kind ∈ (["cpu", "mem", "block", "goroutine", "mutex"] : List String))
    ∧ (∀ a ∈ (TakeSnapshot env p tick).arts,
        (a.kind = "mem" → a.time = env.clock tick)
        ∧ (a.kind = "block" → a.time = env.clock (blockTick env p.conf tick))
        ∧ (a.kind = "goroutine" →
            a.time = env.clock (goroTick env p.conf tick))
        ∧ (a.kind = "mutex" →
            a.time = env.clock (mutexTick env p.conf tick)))
    ∧ ((∀ i j, tick ≤ i → i < tick + 4 → tick ≤ j → j < tick + 4 →
          env.clock i = env.clock j) →
        ∀ a ∈ (TakeSnapshot env p tick).arts,
          ∀ b ∈ (TakeSnapshot env p tick).arts, a.time = b.time) := by
  refine ⟨run_arts_named env ws p tick, snap_arts_kind_time env p tick, ?_⟩
  intro hsteady a ha b hb
  obtain ⟨i, hi1, hi2, hi3⟩ := snap_arts_time_window env p tick a ha
  obtain ⟨j, hj1, hj2, hj3⟩ := snap_arts_time_window env p tick b hb
  rw [hi3, hj3]
  exact hsteady i j hi1 hi2 hj1 hj2

theorem claim_C6_witness :
    (∀ a ∈ (run envW [Wake.terminate] (NewProfiler confMem) 0).artifacts,
       a.name = fileName (NewProfiler confMem).conf.Prefix a.kind a.time ∧
       a.kind ∈ (["cpu", "mem", "block", "goroutine", "mutex"] : List String))
    ∧ (∀ a ∈ (TakeSnapshot envW (NewProfiler confMem) 0).arts,
        (a.kind = "mem" → a.time = envW.clock 0)
        ∧ (a.kind = "block" →
            a.time = envW.clock (blockTick envW (NewProfiler confMem).conf 0))
        ∧ (a.kind = "goroutine" →
            a.time = envW.clock (goroTick envW (NewProfiler confMem).conf 0))
        ∧ (a.kind = "mutex" →
            a.time
              = envW.clock (mutexTick envW (NewProfiler confMem).conf 0)))
    ∧ (∀ a ∈ (TakeSnapshot envW (NewProfiler confMem) 0).arts,
        ∀ b ∈ (TakeSnapshot envW (NewProfiler confMem) 0).arts,
        a.time = b.time) :=
  have h := claim_C6_amended envW [Wake.terminate] (NewProfiler confMem) 0
  ⟨h.1, h.2.1, h.2.2 (fun _ _ _ _ _ _ => rfl)⟩

/-! ## Facts about a successful CPU+Block activation -/

theorem activate_ok_arts_cpu (env : Env) (p : Profiler) (tick : Nat)
    (s : StepOut) (h : activate env p tick = Except.ok s)
    (hcpu : p.conf.CPU = true)
    (hcr : env.createOk (fileName p.conf.Prefix "cpu" (env.clock tick))
      = true) :
    (⟨"cpu", env.clock tick, fileName p.conf.Prefix "cpu" (env.clock tick)⟩
      : Artifact) ∈ s.arts := by
  simp only [activate, startProfilingCPU, hcpu, hcr, if_true, reduceIte] at h
  cases h
  simp

theorem activate_ok_blockrate (env : Env) (p : Profiler) (tick : Nat)
    (s : StepOut) (h : activate env p tick = Except.ok s)
    (hblk : p.conf.Block = true) :
    Event.setBlockProfileRate 1 ∈ s.evs := by
  cases hC : p.conf.CPU with
  | false =>
      simp only [activate, startProfilingCPU, hC, Bool.false_eq_true,
        if_false, reduceIte] at h
      cases h
      simp [hblk]
  | true =>
      by_cases hcr : env.createOk (fileName p.conf.Prefix "cpu" (env.clock tick))
      · simp only [activate, startProfilingCPU, hC, hcr, if_true,
          reduceIte] at h
        cases h
        simp [hblk]
      · simp only [activate, startProfilingCPU, hC, hcr, if_true, reduceIte,
          Bool.false_eq_true, if_false] at h
        cases h

theorem activate_cpu_no_error (env : Env) (p : Profiler) (tick : Nat)
    (hcr : env.createOk (fileName p.conf.Prefix "cpu" (env.clock tick))
      = true) :
    ∃ s, activate env p tick = Except.ok s := by
  rcases ha : activate env p tick with evs | s1
  · exfalso
    cases hC : p.conf.CPU with
    | false =>
        simp only [activate, startProfilingCPU, hC, Bool.false_eq_true,
          if_false, reduceIte] at ha
        exact Except.noConfusion ha
    | true =>
        simp only [activate, startProfilingCPU, hC, hcr, if_true,
          reduceIte] at ha
        exact Except.noConfusion ha
  · exact ⟨s1, rfl⟩

theorem blockrate0_mem_blockSnap (env : Env) (c : Config) (t : Nat) :
    Event.setBlockProfileRate 0 ∈ (takeBlockSnapshot env c t).1 := by
  simp [takeBlockSnapshot]

/-- C9: on timer expiry the loop snapshots and re-invokes `Run` on the rest
of the schedule; the snapshot itself set the block rate to 0, and the
re-invoked `Run` repeats the whole activation: it opens a fresh CPU capture
artifact, leaves exactly that one new cleanup registered (the snapshot had
emptied the list), and re-enables block recording at rate 1, all before
re-parsing the interval and re-arming the timer. -/
theorem claim_C9 (env : Env) (p : Profiler) (tick d : Nat) (ws : List Wake)
    (s : StepOut)
    (hact : activate env p tick = Except.ok s)
    (hcpu : p.conf.CPU = true)
    (hblk : p.conf.Block = true)
    (hi : p.conf.Interval ≠ "")
    (hd : env.parseDuration p.conf.Interval = some d)
    (hcr2 : env.createOk (fileName p.conf.Prefix "cpu"
      (env.clock (TakeSnapshot env s.prof s.tick).tick)) = true) :
    run env (Wake.timer :: ws) p tick
      = prependOut
          (s.evs ++ [Event.armTimer d] ++ (TakeSnapshot env s.prof s.tick).evs)
          (s.arts ++ (TakeSnapshot env s.prof s.tick).arts)
          (run env ws (TakeSnapshot env s.prof s.tick).prof
            (TakeSnapshot env s.prof s.tick).tick)
    ∧ Event.setBlockProfileRate 0 ∈ (TakeSnapshot env s.prof s.tick).evs
    ∧ ∃ s2,
        activate env (TakeSnapshot env s.prof s.tick).prof
            (TakeSnapshot env s.prof s.tick).tick = Except.ok s2
        ∧ s2.prof.closers
            = [fileName p.conf.Prefix "cpu"
                (env.clock (TakeSnapshot env s.prof s.tick).tick)]
        ∧ (⟨"cpu", env.clock (TakeSnapshot env s.prof s.tick).tick,
             fileName p.conf.Prefix "cpu"
               (env.clock (TakeSnapshot env s.prof s.tick).tick)⟩ : Artifact)
            ∈ s2.arts
        ∧ Event.setBlockProfileRate 1 ∈ s2.evs
        ∧ ∀ (w : Wake) (ws2 : List Wake), ∃ rest,
            (run env (w :: ws2) (TakeSnapshot env s.prof s.tick).prof
              (TakeSnapshot env s.prof s.tick).tick).events
              = s2.evs ++ [Event.armTimer d] ++ rest := by
  have hson : s.prof.conf = p.conf := (activate_ok_prof env p tick s hact).1
  have hon : p.conf.isOn = true := by
    simp [Config.isOn, hcpu]
  have hh : runHead env p tick = Phase.wait s d := by
    simp [runHead, hact, hon, hi, hd]
  have hsnapconf : (TakeSnapshot env s.prof s.tick).prof.conf = p.conf := by
    rw [TakeSnapshot_prof]
    exact hson
  have hsnapclosers : (TakeSnapshot env s.prof s.tick).prof.closers = [] := rfl
  obtain ⟨s2, ha2⟩ := activate_cpu_no_error env
    (TakeSnapshot env s.prof s.tick).prof (TakeSnapshot env s.prof s.tick).tick
    (by rw [hsnapconf]; exact hcr2)
  have hs2closers := (activate_ok_prof env _ _ s2 ha2).2.2.1
  rw [hsnapclosers, hsnapconf, hcpu] at hs2closers
  simp only [if_true, List.nil_append] at hs2closers
  refine ⟨?_, ?_, s2, ha2, hs2closers, ?_, ?_, ?_⟩
  · simp [run, hh]
  · have hb2 : s.prof.conf.Block = true := by rw [hson]; exact hblk
    exact mem_snap_of_mem_block env s.prof s.tick hb2
      (blockrate0_mem_blockSnap env s.prof.conf _)
  · have := activate_ok_arts_cpu env (TakeSnapshot env s.prof s.tick).prof
      (TakeSnapshot env s.prof s.tick).tick s2 ha2
      (by rw [hsnapconf]; exact hcpu) (by rw [hsnapconf]; exact hcr2)
    rwa [hsnapconf] at this
  · exact activate_ok_blockrate env (TakeSnapshot env s.prof s.tick).prof
      (TakeSnapshot env s.prof s.tick).tick s2 ha2
      (by rw [hsnapconf]; exact hblk)
  · intro w ws2
    have hh2 : runHead env (TakeSnapshot env s.prof s.tick).prof
        (TakeSnapshot env s.prof s.tick).tick = Phase.wait s2 d := by
      simp [runHead, ha2, hsnapconf, hon, hi, hd]
    cases w with
    | timer =>
        refine ⟨(TakeSnapshot env s2.prof s2.tick).evs ++
          (run env ws2 (TakeSnapshot env s2.prof s2.tick).prof
            (TakeSnapshot env s2.prof s2.tick).tick).events, ?_⟩
        simp [run, hh2, prependOut_events]
    | terminate =>
        refine ⟨(TakeSnapshot env s2.prof s2.tick).evs, ?_⟩
        simp [run, hh2, Outcome.events]

/-- CPU and block profiling with a one-second interval. -/
def confCB : Config := ⟨true, false, true, false, false, "w.", "1s", 0, 0, 0⟩

/-- Activation output of `confCB` under `envW` at tick 0. -/
def sCB : StepOut :=
  ⟨⟨confCB, ["w.cpu.7.pprof"], false⟩,
   [Event.logMsg "Starting new CPU Profiler: w.cpu.7.pprof",
    Event.createFile "w.cpu.7.pprof" true,
    Event.startCPUProfile true,
    Event.setBlockProfileRate 1],
   [⟨"cpu", 7, "w.cpu.7.pprof"⟩], 1⟩

theorem claim_C9_witness :
    run envW [Wake.timer] (NewProfiler confCB) 0
      = prependOut
          (sCB.evs ++ [Event.armTimer 1000000000]
            ++ (TakeSnapshot envW sCB.prof sCB.tick).evs)
          (sCB.arts ++ (TakeSnapshot envW sCB.prof sCB.tick).arts)
          (run envW [] (TakeSnapshot envW sCB.prof sCB.tick).prof
            (TakeSnapshot envW sCB.prof sCB.tick).tick)
    ∧ Event.setBlockProfileRate 0 ∈ (TakeSnapshot envW sCB.prof sCB.tick).evs
    ∧ ∃ s2,
        activate envW (TakeSnapshot envW sCB.prof sCB.tick).prof
            (TakeSnapshot envW sCB.prof sCB.tick).tick = Except.ok s2
        ∧ s2.prof.closers
            = [fileName (NewProfiler confCB).conf.Prefix "cpu"
                (envW.clock (TakeSnapshot envW sCB.prof sCB.tick).tick)]
        ∧ (⟨"cpu", envW.clock (TakeSnapshot envW sCB.prof sCB.tick).tick,
             fileName (NewProfiler confCB).conf.Prefix "cpu"
               (envW.clock (TakeSnapshot envW sCB.prof sCB.tick).tick)⟩
             : Artifact) ∈ s2.arts
        ∧ Event.setBlockProfileRate 1 ∈ s2.evs
        ∧ ∀ (w : Wake) (ws2 : List Wake), ∃ rest,
            (run envW (w :: ws2) (TakeSnapshot envW sCB.prof sCB.tick).prof
              (TakeSnapshot envW sCB.prof sCB.tick).tick).events
              = s2.evs ++ [Event.armTimer 1000000000] ++ rest :=
  claim_C9 envW (NewProfiler confCB) 0 1000000000 [] sCB rfl rfl rfl
    (by decide) rfl rfl

end GoProfiler
